import Mathlib

/-!
Verification development for the parameter-coupling extraction pipeline
(source files: couple_extractor.py, string_filter.py, couple_extractor2.py).

The Python code is shallowly embedded: pure fragments become Lean
functions over lists of characters and association lists; fallible code
returns Option or Except.  Dictionaries are modelled as insertion-ordered
association lists (a Python dict keeps insertion order and updating an
existing key keeps its position); Python sets are modelled as
duplicate-free lists built by insert-if-absent.
-/

namespace Params

/-- Whitespace characters recognised by the Python str.strip method and
by the regex class backslash-s (space, tab, newline, carriage return,
vertical tab, form feed). -/
def pyIsSpace (c : Char) : Bool :=
  c = ' ' || c = '\t' || c = '\n' || c = '\r' || c = '\x0b' || c = '\x0c'

/-- Word characters of the Python regex class backslash-w, ASCII model:
letters, digits and the underscore. -/
def isWordChar (c : Char) : Bool := c.isAlphanum || c = '_'

/-- Complement of pyIsSpace, the regex class backslash-S. -/
def nonSpace (c : Char) : Bool := !pyIsSpace c

/-- Character class of the regex range piece: anything but a closing
parenthesis. -/
def notRParen (c : Char) : Bool := c ≠ ')'

/-- Remove leading whitespace (Python str.lstrip). -/
def lstrip (l : List Char) : List Char := l.dropWhile pyIsSpace

/-- Remove trailing whitespace (Python str.rstrip). -/
def rstrip : List Char → List Char
  | [] => []
  | a :: t =>
    let r := rstrip t
    if r.isEmpty then (if pyIsSpace a then [] else [a]) else a :: r

/-- Remove leading and trailing whitespace (Python str.strip). -/
def strip (l : List Char) : List Char := lstrip (rstrip l)

/-- Split a list at the first occurrence of the character c
(Python str.split(c, 1)); none when c does not occur. -/
def splitFirst (c : Char) : List Char → Option (List Char × List Char)
  | [] => none
  | a :: t =>
    if a = c then some ([], t)
    else
      match splitFirst c t with
      | none => none
      | some (b, r) => some (a :: b, r)

/-- One entry of the Parameter Catalog (dataclass ParamInfo of
couple_extractor.py). -/
structure ParamInfo where
  name : String
  type : String
  default : String
  range : String
  comment : String
deriving Repr, DecidableEq

/-- Attempt of the optional regex tail group, a question mark over
a run of whitespace, an opening parenthesis, one or more characters
other than a closing parenthesis, and the closing parenthesis.
Returns the captured range or the empty list when the group is absent,
mirroring the backtracking behaviour of the Python engine on this
pattern (each greedy piece here is forced, so the search is
deterministic). -/
def tryRange (r : List Char) : List Char :=
  let sp := r.takeWhile pyIsSpace
  if sp.isEmpty then []
  else
    match r.dropWhile pyIsSpace with
    | [] => []
    | c :: r2 =>
      if c = '(' then
        let rg := r2.takeWhile notRParen
        if rg.isEmpty then []
        else
          match r2.dropWhile notRParen with
          | [] => []
          | d :: _ => if d = ')' then rg else []
      else []

/-- Attempt of the regex remainder after the name capture: whitespace
run, opening parenthesis, word-character run (the type), closing
parenthesis, mandatory whitespace, non-whitespace run (the value), then
the optional range group.  On the fixed pattern of parse_param_line
every greedy repetition is forced by its follower, so the Python
backtracking search reduces to this deterministic scan. -/
def tryTail (rest : List Char) : Option (List Char × List Char × List Char) :=
  match rest.dropWhile pyIsSpace with
  | [] => none
  | c :: r2 =>
    if c = '(' then
      let ty := r2.takeWhile isWordChar
      if ty.isEmpty then none
      else
        match r2.dropWhile isWordChar with
        | [] => none
        | d :: r4 =>
          if d = ')' then
            let sp := r4.takeWhile pyIsSpace
            if sp.isEmpty then none
            else
              let r5 := r4.dropWhile pyIsSpace
              let v := r5.takeWhile nonSpace
              if v.isEmpty then none
              else some (ty, v, tryRange (r5.dropWhile nonSpace))
          else none
    else none

/-- Search for the name capture of the declaration regex.  The greedy
leading non-whitespace group tries the longest prefix first and the
Python engine backtracks one character at a time; the counter is the
length of the candidate name prefix currently tried. -/
def findNameLoop (body : List Char) : Nat → Option (List Char × List Char × List Char × List Char)
  | 0 => none
  | k + 1 =>
    match tryTail (body.drop (k + 1)) with
    | some (t, v, r) => some (body.take (k + 1), t, v, r)
    | none => findNameLoop body k

/-- Core of DependencyLoader.parse_param_line on a character list:
strip the line, skip empty and comment-only lines, split the inline
comment at the first hash sign, then match the remainder against the
declaration grammar NAME(TYPE) VALUE optionally followed by (RANGE).
Returns none for malformed lines. -/
def parse_param_line_list (line : List Char) : Option ParamInfo :=
  let l := strip line
  if l.isEmpty then none
  else if l.head? = some '#' then none
  else
    let bc :=
      match splitFirst '#' l with
      | some (b, a) => (strip b, strip a)
      | none => (l, ([] : List Char))
    match findNameLoop bc.1 (bc.1.takeWhile nonSpace).length with
    | some (n, t, v, r) =>
      some ⟨String.mk n, String.mk t, String.mk v, String.mk r, String.mk bc.2⟩
    | none => none

/-- DependencyLoader.parse_param_line, wrapped over String. -/
def parse_param_line (line : String) : Option ParamInfo :=
  parse_param_line_list line.toList

/-! Text Scanner embedding: StringMatcher of couple_extractor.py and
SmartStringMatcher of string_filter.py.  File reading is external; the
embedding takes the file content as an argument (the source returns
None for an unreadable file before any of the logic modelled here). -/

/-- Fuel-driven worker for removing line comments: from every
occurrence of two slashes up to the end of the line (the newline itself
survives), as re.sub of slash-slash dot-star-lazy dollar in MULTILINE
mode.  The fuel only serves termination; the initial fuel below always
suffices. -/
def stripLineCommentsFuel : Nat → List Char → List Char
  | 0, l => l
  | _ + 1, [] => []
  | fuel + 1, '/' :: '/' :: rest =>
    stripLineCommentsFuel fuel (rest.dropWhile (fun c => c ≠ '\n'))
  | fuel + 1, c :: rest => c :: stripLineCommentsFuel fuel rest

/-- Remove line comments (first substitution of remove_noise). -/
def stripLineComments (l : List Char) : List Char := stripLineCommentsFuel l.length l

/-- Scan for the closing star-slash of a block comment; some rest when
found, none when the comment is unterminated. -/
def dropToBlockEnd : List Char → Option (List Char)
  | [] => none
  | '*' :: '/' :: rest => some rest
  | _ :: rest => dropToBlockEnd rest

/-- Fuel-driven worker for removing minimal slash-star block comments
(re.sub of slash-star dot-star-lazy star-slash with DOTALL); an
unterminated opener is left in place, as the regex then cannot match
anywhere in the remaining text. -/
def stripBlockCommentsFuel : Nat → List Char → List Char
  | 0, l => l
  | _ + 1, [] => []
  | fuel + 1, '/' :: '*' :: rest =>
    match dropToBlockEnd rest with
    | some r => stripBlockCommentsFuel fuel r
    | none => '/' :: '*' :: rest
  | fuel + 1, c :: rest => c :: stripBlockCommentsFuel fuel rest

/-- Remove block comments (second substitution of remove_noise). -/
def stripBlockComments (l : List Char) : List Char := stripBlockCommentsFuel l.length l

/-- Fuel-driven worker replacing every double-quoted literal without
inner quotes by an empty literal of two quotes (re.sub of
quote non-quote-star quote); a final unmatched quote survives. -/
def stripStringsFuel : Nat → List Char → List Char
  | 0, l => l
  | _ + 1, [] => []
  | fuel + 1, '"' :: rest =>
    match splitFirst '"' rest with
    | some (_, r) => '"' :: '"' :: stripStringsFuel fuel r
    | none => '"' :: rest
  | fuel + 1, c :: rest => c :: stripStringsFuel fuel rest

/-- Remove string literals (third substitution of remove_noise). -/
def stripStrings (l : List Char) : List Char := stripStringsFuel l.length l

/-- StringMatcher.remove_noise and SmartStringMatcher.remove_noise:
strip line comments, then block comments, then string literals, in that
order. -/
def remove_noise (content : List Char) : List Char :=
  stripStrings (stripBlockComments (stripLineComments content))

/-- Word-character test of the character standing at offset i, false
beyond the end (used for the regex word-boundary semantics). -/
def wordAt (content : List Char) (i : Nat) : Bool :=
  match (content.drop i).head? with
  | some c => isWordChar c
  | none => false

/-- Word boundary of the regex anchor at offset i: the word-character
status changes between offsets i-1 and i, with positions outside the
text counting as non-word. -/
def boundaryAt (content : List Char) (i : Nat) : Bool :=
  (if i = 0 then false else wordAt content (i - 1)) != wordAt content i

/-- Match of the whole-word pattern at offset i: the name occurs
verbatim there with a word boundary on each side. -/
def wbMatchAt (content pat : List Char) (i : Nat) : Bool :=
  pat.isPrefixOf (content.drop i) &&
  boundaryAt content i &&
  (match pat.getLast? with
   | some c => isWordChar c != wordAt content (i + pat.length)
   | none => true)

/-- Fuel-driven left-to-right non-overlapping scan of re.finditer:
record a match offset and jump past the match, advance by one
otherwise. -/
def findIterAux (content pat : List Char) : Nat → Nat → List Nat
  | 0, _ => []
  | fuel + 1, i =>
    if content.length < i then []
    else if wbMatchAt content pat i then
      i :: findIterAux content pat fuel (i + max 1 pat.length)
    else
      findIterAux content pat fuel (i + 1)

/-- All match offsets of the whole-word pattern in the content. -/
def find_iter (content pat : List Char) : List Nat :=
  findIterAux content pat (content.length + 1) 0

/-- One context record of extract_context, with the parameter name the
callers attach to it. -/
structure MatchCtx where
  line_number : Nat
  snippet : List Char
  position : Nat
  param : String
deriving Repr, DecidableEq

/-- StringMatcher.extract_context: 1-based line number counted in the
cleaned text before the match, a window of 200 characters on each side,
and the absolute offset. -/
def extract_context (content : List Char) (pos : Nat) (param : String) : MatchCtx :=
  { line_number := ((content.take pos).filter (fun c => c = '\n')).length + 1
    snippet := (content.take (pos + 200)).drop (pos - 200)
    position := pos
    param := param }

/-- Association-list lookup with string keys (Python dict read). -/
def alookup {β : Type} (k : String) : List (String × β) → Option β
  | [] => none
  | (k', v) :: t => if k' = k then some v else alookup k t

/-- Insertion into a sorted list of strings, for the Python sorted
builtin. -/
def insertSorted (x : String) : List String → List String
  | [] => [x]
  | y :: t => if x ≤ y then x :: y :: t else y :: insertSorted x t

/-- Insertion sort over strings (Python sorted on a list of names). -/
def sortStrings : List String → List String
  | [] => []
  | x :: t => insertSorted x (sortStrings t)

/-- Result record FileMatchResult of couple_extractor.py. -/
structure FileMatchResult where
  file_path : String
  matched_params : List String
  params_info : List ParamInfo
  match_count : Nat
  contexts : List MatchCtx
deriving Repr, DecidableEq

/-- One step of the parameter loop of
StringMatcher.match_params_in_file: skip names missing from the
Parameter Catalog, then record the name and the first three occurrence
contexts when the whole-word search finds anything. -/
def matchStep (cleaned : List Char) (params_info : List (String × ParamInfo))
    (acc : List String × List MatchCtx) (param_name : String) :
    List String × List MatchCtx :=
  if (alookup param_name params_info).isNone then acc
  else
    let ms := find_iter cleaned param_name.toList
    if ms.isEmpty then acc
    else (acc.1 ++ [param_name],
      acc.2 ++ (ms.take 3).map (fun p => extract_context cleaned p param_name))

/-- StringMatcher.match_params_in_file (couple_extractor.py): clean the
content, scan only the given cluster parameters against the catalog,
return none when nothing matched, otherwise the sorted distinct matched
names, their catalog records, the count of matched names and the capped
contexts. -/
def match_params_in_file (file_path : String) (raw_content : String)
    (cluster_params : List String) (params_info : List (String × ParamInfo)) :
    Option FileMatchResult :=
  let cleaned := remove_noise raw_content.toList
  let step := cluster_params.foldl (matchStep cleaned params_info)
    (([] : List String), ([] : List MatchCtx))
  if step.1.isEmpty then none
  else
    some { file_path := file_path
           matched_params := sortStrings step.1
           params_info := step.1.filterMap (fun p => alookup p params_info)
           match_count := step.1.length
           contexts := step.2 }

/-- Result record MatchResult of string_filter.py. -/
structure MatchResult where
  file_path : String
  matched_params : List String
  match_count : Nat
  code_contexts : List MatchCtx
  file_type : String
deriving Repr, DecidableEq

/-- Substring occurrence test (the Python in operator on strings). -/
def containsSub (s sub : List Char) : Bool :=
  (List.range (s.length + 1)).any (fun i => sub.isPrefixOf (s.drop i))

/-- SmartStringMatcher.classify_file: classify by the def, dut or tb
path component. -/
def classify_file (file_path : String) : String :=
  let s := file_path.toList
  if containsSub s "/def/".toList || containsSub s "\\def\\".toList then "def"
  else if containsSub s "/dut/".toList || containsSub s "\\dut\\".toList then "dut"
  else if containsSub s "/tb/".toList || containsSub s "\\tb\\".toList then "tb"
  else "unknown"

/-- One step of the parameter loop of
SmartStringMatcher.match_params_in_file: no catalog filtering; the
match counter accumulates every raw occurrence. -/
def smartStep (cleaned : List Char) (acc : List String × Nat × List MatchCtx)
    (param : String) : List String × Nat × List MatchCtx :=
  let ms := find_iter cleaned param.toList
  if ms.isEmpty then acc
  else (acc.1 ++ [param], acc.2.1 + ms.length,
    acc.2.2 ++ (ms.take 3).map (fun p => extract_context cleaned p param))

/-- SmartStringMatcher.match_params_in_file (string_filter.py): always
returns a result record for readable content; match_count is the total
number of raw occurrences over all candidate names, and no Parameter
Catalog is consulted. -/
def smart_match_params_in_file (file_path : String) (raw_content : String)
    (params : List String) : MatchResult :=
  let cleaned := remove_noise raw_content.toList
  let step := params.foldl (smartStep cleaned)
    (([] : List String), 0, ([] : List MatchCtx))
  { file_path := file_path
    matched_params := step.1
    match_count := step.2.1
    code_contexts := step.2.2
    file_type := classify_file file_path }

/-! Pairing Engine embedding: FilePairBuilder and ClusterPairBuilder of
couple_extractor.py.  The scanner output (candidates) is the map from
cluster name to the list of per-file match records; the dependency data
is the module_dependencies edge list obtained through the chained .get
calls, with a missing input file yielding the empty list. -/

/-- One dependency edge of the external dependency_analysis input. -/
structure DepEdge where
  source_path : String
  target_path : String
  module_type : String
  instance_name : String
  description : String
deriving Repr, DecidableEq

/-- The dependency data, reduced to the module_dependencies list that
both builders read through dependency_data .get chains. -/
structure DependencyData where
  module_deps : List DepEdge
deriving Repr, DecidableEq

/-- DependencyLoader.load on a missing dependency file: the dependency
data becomes the empty structure, so the .get chains yield no edges. -/
def emptyDependencyData : DependencyData := ⟨[]⟩

/-- One file record of the candidates map (an element of
candidates[cluster_name], as produced by StringMatcher.scan_cluster). -/
structure FileEntry where
  file : String
  matched_params : List String
  params_info : List ParamInfo
  match_count : Nat
  contexts : List MatchCtx
deriving Repr, DecidableEq

/-- Python set insertion: append the element unless present. -/
def setInsert (x : String) (l : List String) : List String :=
  if x ∈ l then l else l ++ [x]

/-- Python set update with an iterable: insert every element. -/
def setUnion (l : List String) (xs : List String) : List String :=
  xs.foldl (fun acc x => setInsert x acc) l

/-- Python dict assignment d[k] = v: replace in place or append. -/
def upsert {β : Type} (k : String) (v : β) : List (String × β) → List (String × β)
  | [] => [(k, v)]
  | (k', v') :: t => if k' = k then (k, v) :: t else (k', v') :: upsert k v t

/-- Python get-or-create followed by an update of the entry. -/
def upsertWith {β : Type} (dflt : β) (k : String) (f : β → β) :
    List (String × β) → List (String × β)
  | [] => [(k, f dflt)]
  | (k', v') :: t => if k' = k then (k, f v') :: t else (k', v') :: upsertWith dflt k f t

/-- Value type of the merged file map of FilePairBuilder.build_pairs:
params and clusters behave as Python sets, params_info and contexts as
extended lists. -/
structure MergedInfo where
  params : List String
  params_info : List ParamInfo
  clusters : List String
  contexts : List MatchCtx
deriving Repr, DecidableEq

/-- The fresh entry created for a file first seen in the merge. -/
def emptyMerged : MergedInfo := ⟨[], [], [], []⟩

/-- One update of a merged entry from a candidates record of one
cluster. -/
def updateMerged (cluster_name : String) (f : FileEntry) (m : MergedInfo) : MergedInfo :=
  { params := setUnion m.params f.matched_params
    params_info := m.params_info ++ f.params_info
    clusters := setInsert cluster_name m.clusters
    contexts := m.contexts ++ f.contexts }

namespace FilePairBuilder

/-- The merged file-to-parameters map built at the start of
FilePairBuilder.build_pairs. -/
def build_file_to_params (candidates : List (String × List FileEntry)) :
    List (String × MergedInfo) :=
  candidates.foldl (fun m cf =>
    cf.2.foldl (fun m f => upsertWith emptyMerged f.file (updateMerged cf.1 f) m) m) []

/-- An analysis task of the File-Pair strategy. -/
inductive FilePairTask where
  | interFile (caller_file callee_file module instance_name instantiation_code : String)
      (caller_params : List String) (caller_params_info : List ParamInfo)
      (callee_params : List String) (callee_params_info : List ParamInfo)
      (caller_clusters callee_clusters : List String)
  | intraFileMultiCluster (file role module instance_name instantiation_code : String)
      (params : List String) (params_info : List ParamInfo)
      (clusters : List String) (other_file : String)
deriving Repr, DecidableEq

/-- The if / elif / elif / else chain of FilePairBuilder.build_pairs for
one dependency edge: both sides matched gives INTER_FILE; exactly one
side matched with more than one cluster gives INTRA_FILE_MULTI_CLUSTER;
anything else yields no task. -/
def classifyEdge (m : List (String × MergedInfo)) (e : DepEdge) : Option FilePairTask :=
  match alookup e.source_path m, alookup e.target_path m with
  | some ci, some bi =>
    some (.interFile e.source_path e.target_path e.module_type e.instance_name e.description
      (sortStrings ci.params) ci.params_info (sortStrings bi.params) bi.params_info
      (sortStrings ci.clusters) (sortStrings bi.clusters))
  | some ci, none =>
    if 1 < ci.clusters.length then
      some (.intraFileMultiCluster e.source_path "caller" e.module_type e.instance_name
        e.description (sortStrings ci.params) ci.params_info (sortStrings ci.clusters)
        e.target_path)
    else none
  | none, some bi =>
    if 1 < bi.clusters.length then
      some (.intraFileMultiCluster e.target_path "callee" e.module_type e.instance_name
        e.description (sortStrings bi.params) bi.params_info (sortStrings bi.clusters)
        e.source_path)
    else none
  | none, none => none

/-- FilePairBuilder.build_pairs: the edge loop appends at most one task
per edge, which is exactly a filterMap of the classification. -/
def build_pairs (dep : DependencyData) (candidates : List (String × List FileEntry)) :
    List FilePairTask :=
  dep.module_deps.filterMap (classifyEdge (build_file_to_params candidates))

end FilePairBuilder

/-- Number of matched clusters of one side of an edge, zero when the
file is absent from the merged map. -/
def sideClusterCount (o : Option MergedInfo) : Nat :=
  match o with
  | some i => i.clusters.length
  | none => 0

namespace ClusterPairBuilder

/-- Per-cluster payload stored in params_by_cluster. -/
structure ParamsByCluster where
  params : List String
  params_info : List ParamInfo
  contexts : List MatchCtx
deriving Repr, DecidableEq

/-- Value type of the file map of
ClusterPairBuilder._build_file_param_mapping. -/
structure FileClusterInfo where
  clusters : List String
  params_by_cluster : List (String × ParamsByCluster)
deriving Repr, DecidableEq

/-- The fresh entry created for a file first seen in the mapping. -/
def emptyFCI : FileClusterInfo := ⟨[], []⟩

/-- Update of one file entry of the mapping by one candidates record of
one cluster. -/
def mapStepFile (cluster_name : String) (m : List (String × FileClusterInfo))
    (f : FileEntry) : List (String × FileClusterInfo) :=
  upsertWith emptyFCI f.file (fun info =>
    { clusters := setInsert cluster_name info.clusters
      params_by_cluster := upsert cluster_name ⟨f.matched_params, f.params_info, f.contexts⟩
        info.params_by_cluster }) m

/-- ClusterPairBuilder._build_file_param_mapping: for every cluster and
every matched file record, add the cluster to the file entry and store
the per-cluster parameter payload. -/
def build_file_param_mapping (candidates : List (String × List FileEntry)) :
    List (String × FileClusterInfo) :=
  candidates.foldl (fun m cf => cf.2.foldl (mapStepFile cf.1) m) []

/-- The used-cluster set: the union of the cluster sets over all file
entries of the mapping. -/
def used_clusters (m : List (String × FileClusterInfo)) : List String :=
  m.foldl (fun acc kv => setUnion acc kv.2.clusters) []

/-- itertools.combinations of size two, in discovery order. -/
def combinations2 {α : Type} : List α → List (α × α)
  | [] => []
  | x :: xs => xs.map (fun y => (x, y)) ++ combinations2 xs

/-- One code context collected for a cluster pair: an intra-file
co-occurrence or an inter-file dependency with a direction tag. -/
inductive CPContext where
  | intra (file cluster1 cluster2 : String) (cluster1_params cluster2_params : ParamsByCluster)
  | inter (caller_file callee_file caller_cluster callee_cluster : String)
      (caller_params callee_params : ParamsByCluster)
      (module instance_name instantiation_code direction : String)
deriving Repr, DecidableEq

/-- Discriminator for the INTRA_FILE context type tag. -/
def CPContext.isIntra : CPContext → Bool
  | .intra _ _ _ _ _ => true
  | _ => false

/-- Discriminator for the INTER_FILE context type tag. -/
def CPContext.isInter : CPContext → Bool
  | .inter _ _ _ _ _ _ _ _ _ _ => true
  | _ => false

/-- Default payload; the lookups below always succeed on the maps that
build_file_param_mapping constructs, because a cluster is inserted into
clusters exactly when its payload is stored in params_by_cluster. -/
def emptyPBC : ParamsByCluster := ⟨[], [], []⟩

/-- ClusterPairBuilder._collect_contexts_for_cluster_pair: intra-file
co-occurrences of both clusters, then both directions of every
dependency edge whose two ends are in the map and carry the two
clusters. -/
def collect_contexts_for_cluster_pair (dep : DependencyData) (c1 c2 : String)
    (m : List (String × FileClusterInfo)) : List CPContext :=
  let intra := m.filterMap (fun kv =>
    if c1 ∈ kv.2.clusters ∧ c2 ∈ kv.2.clusters then
      some (CPContext.intra kv.1 c1 c2
        ((alookup c1 kv.2.params_by_cluster).getD emptyPBC)
        ((alookup c2 kv.2.params_by_cluster).getD emptyPBC))
    else none)
  let inter := dep.module_deps.foldl (fun acc e =>
    match alookup e.source_path m, alookup e.target_path m with
    | some ci, some bi =>
      let acc1 :=
        if c1 ∈ ci.clusters ∧ c2 ∈ bi.clusters then
          acc ++ [CPContext.inter e.source_path e.target_path c1 c2
            ((alookup c1 ci.params_by_cluster).getD emptyPBC)
            ((alookup c2 bi.params_by_cluster).getD emptyPBC)
            e.module_type e.instance_name e.description (c1 ++ "→" ++ c2)]
        else acc
      if c2 ∈ ci.clusters ∧ c1 ∈ bi.clusters then
        acc1 ++ [CPContext.inter e.source_path e.target_path c2 c1
          ((alookup c2 ci.params_by_cluster).getD emptyPBC)
          ((alookup c1 bi.params_by_cluster).getD emptyPBC)
          e.module_type e.instance_name e.description (c2 ++ "→" ++ c1)]
      else acc1
    | _, _ => acc) []
  intra ++ inter

/-- An analysis task of the Cluster-Pair strategy. -/
structure ClusterPairTask where
  cluster_pair : String × String
  contexts : List CPContext
  context_count : Nat
  has_intra_file : Bool
  has_inter_file : Bool
deriving Repr, DecidableEq

/-- ClusterPairBuilder._make_cluster_pair_key: the unordered key is the
sorted pair of cluster names joined by a double arrow. -/
def make_cluster_pair_key (c1 c2 : String) : String :=
  if c1 ≤ c2 then c1 ++ "↔" ++ c2 else c2 ++ "↔" ++ c1

/-- The task value stored for a cluster pair with its contexts. -/
def mkClusterPairTask (c1 c2 : String) (ctxs : List CPContext) : ClusterPairTask :=
  { cluster_pair := (c1, c2)
    contexts := ctxs
    context_count := ctxs.length
    has_intra_file := ctxs.any CPContext.isIntra
    has_inter_file := ctxs.any CPContext.isInter }

/-- One iteration of the cluster-pair loop: collect the contexts and
store the task under the normalized key when they are nonempty. -/
def pairStep (dep : DependencyData) (m : List (String × FileClusterInfo))
    (d : List (String × ClusterPairTask)) (p : String × String) :
    List (String × ClusterPairTask) :=
  let ctxs := collect_contexts_for_cluster_pair dep p.1 p.2 m
  if ctxs.isEmpty then d
  else upsert (make_cluster_pair_key p.1 p.2) (mkClusterPairTask p.1 p.2 ctxs) d

/-- ClusterPairBuilder.build_pairs: enumerate the unordered pairs of the
sorted used clusters, keep those with a nonempty context list in a dict
keyed by the normalized pair key, and return the dict values. -/
def build_pairs (dep : DependencyData) (candidates : List (String × List FileEntry))
    (clusters_def : List (String × List String)) : List ClusterPairTask :=
  let m := build_file_param_mapping candidates
  let used_sorted := sortStrings (used_clusters m)
  ((combinations2 used_sorted).foldl (pairStep dep m) []).map Prod.snd

end ClusterPairBuilder

/-- A cluster has at least one matching file in the candidates map. -/
def clusterHasFile (candidates : List (String × List FileEntry)) (c : String) : Bool :=
  candidates.any (fun p => p.1 = c && !p.2.isEmpty)

/-- pathlib Path(p).name for the file paths of the dependency data: the
final component after the last slash (the paths carried by the data never
end in a separator). -/
def pathName (s : String) : String :=
  ((s.toList.reverse.takeWhile (fun c => c ≠ '/')).reverse).asString

/-- LLMCouplingAnalyzer._format_params_info: one bullet line per
parameter, with the default, range and comment appended only when the
corresponding field is nonempty (Python truthiness of the strings). -/
def format_params_info (params_info : List ParamInfo) : String :=
  let lines := params_info.map (fun p =>
    let line := "- **" ++ p.name ++ "** (" ++ p.type ++ ")"
    let line := if !p.default.isEmpty then line ++ " = " ++ p.default else line
    let line := if !p.range.isEmpty then line ++ " [" ++ p.range ++ "]" else line
    if !p.comment.isEmpty then line ++ "  // " ++ p.comment else line)
  if lines.isEmpty then "  (No parameters)" else String.intercalate "\n" lines

/-- The sample-parameter fragment of an intra-file context line: the
first five names joined by a comma, with an ellipsis when more exist. -/
def sampleParams (ps : List String) : String :=
  String.intercalate ", " (ps.take 5) ++ (if ps.length > 5 then "..." else "")

/-- The per-context block of LLMCouplingAnalyzer.generate_prompt, for
the 1-based context number i. -/
def renderContext (cluster1 cluster2 : String) (i : Nat) (ctx : ClusterPairBuilder.CPContext) :
    String :=
  match ctx with
  | .intra file _ _ c1p c2p =>
    "\n### Context " ++ toString i ++ ": Intra-File Co-occurrence\n" ++
    "- **File**: `" ++ pathName file ++ "`\n" ++
    "- **Description**: This file uses parameters from both clusters\n" ++
    "- **" ++ cluster1 ++ " parameter count**: " ++ toString c1p.params.length ++ "\n" ++
    "- **" ++ cluster2 ++ " parameter count**: " ++ toString c2p.params.length ++ "\n" ++
    "- **Sample " ++ cluster1 ++ " params**: " ++ sampleParams c1p.params ++ "\n" ++
    "- **Sample " ++ cluster2 ++ " params**: " ++ sampleParams c2p.params ++ "\n"
  | .inter caller_file callee_file _ _ _ _ module_type instance_name instantiation_code
      direction =>
    "\n### Context " ++ toString i ++ ": Inter-File Dependency\n" ++
    "- **Calling relationship**: `" ++ pathName caller_file ++ "` → `" ++
      pathName callee_file ++ "`\n" ++
    "- **Cluster direction**: " ++ direction ++ "\n" ++
    "- **Module type**: " ++ module_type ++ "\n" ++
    "- **Instance name**: " ++ instance_name ++ "\n" ++
    "- **Instantiation code snippet**: \n" ++
    "  ```verilog\n" ++
    "  " ++ instantiation_code.take 300 ++ "   \n" ++
    "  "

/-- The context loop of generate_prompt, enumerating from one. -/
def renderContexts (cluster1 cluster2 : String) : Nat → List ClusterPairBuilder.CPContext → String
  | _, [] => ""
  | i, c :: t => renderContext cluster1 cluster2 i c ++ renderContexts cluster1 cluster2 (i + 1) t

/-- The constant tail of the prompt. The source appends it with a plain
(not an f-) string, so the brace escapes and the cluster placeholders of
its JSON example stay uninterpolated in the output; the text below is
that literal text, with braces written as escapes. -/
def promptTail : String :=
  "\n## Analysis Guidelines\n" ++
  "1. Common Hardware Parameter Coupling Patterns\n" ++
  "A. DIRECT_PASS (Direct Parameter Passing)\n\n" ++
  "Caller passes parameter value to callee through instantiation\n" ++
  "Example: top_width → fifo_width (via #(.WIDTH(top_width)))\n" ++
  "B. DERIVATION (Derived Calculation)\n\n" ++
  "One parameter is mathematically derived from another\n" ++
  "Example: addr_width = log2(depth)\n" ++
  "C. CONSTRAINT (Constraint Relationship)\n\n" ++
  "Parameters must satisfy inequalities or equations\n" ++
  "Example: input_width <= output_width (avoid data truncation)\n" ++
  "Example: cache_line_size % bus_width == 0 (alignment requirement)\n" ++
  "D. CONDITIONAL (Conditional Dependency)\n\n" ++
  "One parameter\x27s value determines another\x27s validity or value\n" ++
  "Example: if enable_ecc==1 then ecc_width=8 else ecc_width=0\n" ++
  "E. RESOURCE (Resource Constraint)\n\n" ++
  "Multiple parameters share resource limitations\n" ++
  "Example: num_channels * channel_width <= total_bandwidth\n" ++
  "F. SEMANTIC (Implicit Semantic Dependency)\n\n" ++
  "Functionally related but no explicit code association\n" ++
  "Example: sender\x27s packet_size should ≤ receiver\x27s buffer_size\n" ++
  "2. Analysis Steps\n" ++
  "Check if caller passes values to callee through instantiation parameters\n" ++
  "Identify semantic relationships (width, depth, enable, configuration, etc.)\n" ++
  "Infer implicit constraints (e.g., width matching, capacity limits)\n" ++
  "Judge coupling strength and confidence level\n" ++
  "3. Confidence Assessment\n" ++
  "high: Explicit association in code (e.g., parameter passing, calculation formula)\n" ++
  "medium: Strong semantic correlation (e.g., data path width matching)\n" ++
  "low: Speculative relationship (e.g., possible resource constraints)\n" ++
  "## Analysis Task\n" ++
  "Please synthesize all the above code contexts and analyze the coupling " ++
  "relationship between these two parameter clusters.\n\n" ++
  "Focus on:\n\n" ++
  "Existence of coupling: Are there dependencies or constraints between parameters " ++
  "from the two clusters?\n" ++
  "Coupling types: Identify the pattern(s) listed above\n" ++
  "Specific parameter pairs: List all discovered parameter coupling pairs\n" ++
  "## Output Format\n" ++
  "Output ONLY JSON, no other text\n\n" ++
  "JSON\n" ++
  "\x7b\x7b\n" ++
  "  \"cluster_pair\": [\"\x7bcluster1\x7d\", \"\x7bcluster2\x7d\"],\n" ++
  "  \"has_coupling\": true,\n" ++
  "  \"analysis_summary\": \"One sentence summarizing the relationship between " ++
  "these two clusters\",\n" ++
  "  \"couplings\": [\n" ++
  "    \x7b\x7b\n" ++
  "      \"param1\": \"Parameter name from \x7bcluster1\x7d\",\n" ++
  "      \"param2\": \"Parameter name from \x7bcluster2\x7d\",\n" ++
  "      \"param1_cluster\": \"\x7bcluster1\x7d\",\n" ++
  "      \"param2_cluster\": \"\x7bcluster2\x7d\",\n" ++
  "      \"type\": \"DIRECT_PASS | DERIVATION | CONSTRAINT | CONDITIONAL | RESOURCE " ++
  "| SEMANTIC\",\n" ++
  "      \"description\": \"Clear description of this coupling relationship\",\n" ++
  "      \"rule\": \"Formalized rule (e.g., A=B, A>=B, A=log2(B))\",\n" ++
  "      \"confidence\": \"high | medium | low\",\n" ++
  "      \"reasoning\": \"Brief explanation of why this coupling exists\",\n" ++
  "      \"evidence_contexts\": [1, 2]\n" ++
  "    \x7d\x7d\n" ++
  "  ]\n" ++
  "\x7d\x7d\n" ++
  "Notes:\n\n" ++
  "If no coupling found, return \x7b\x7b\"has_coupling\": false, \"cluster_pair\": " ++
  "[\"\x7bcluster1\x7d\", \"\x7bcluster2\x7d\"], \"couplings\": []\x7d\x7d\n\n" ++
  "evidence_contexts indicates which context numbers support this coupling\n\n" ++
  "Focus on actually existing, meaningful coupling relationships, avoid speculation\n\n" ++
  "Prioritize high-confidence couplings "

/-- LLMCouplingAnalyzer.generate_prompt: the Document Builder. The
source reads contexts[0] first, an IndexError on a task without
contexts, modelled as none; on every other task the document is the
header, the enumerated context blocks and the constant tail. -/
def generate_prompt (pair_task : ClusterPairBuilder.ClusterPairTask) : Option String :=
  match pair_task.contexts with
  | [] => none
  | first_ctx :: _ =>
    let cluster1 := pair_task.cluster_pair.1
    let cluster2 := pair_task.cluster_pair.2
    let cps :=
      match first_ctx with
      | .intra _ _ _ c1p c2p => (c1p.params_info, c2p.params_info)
      | .inter _ _ _ _ cp ep _ _ _ _ => (cp.params_info, ep.params_info)
    let header :=
      "# Hardware Parameter Cluster Coupling Analysis\n\n" ++
      "## Objective\n" ++
      "Analyze the coupling relationships between two parameter clusters:\n" ++
      "- **Cluster 1**: " ++ cluster1 ++ "\n" ++
      "- **Cluster 2**: " ++ cluster2 ++ "\n\n" ++
      "---\n\n" ++
      "## Cluster 1 Parameter Definitions: " ++ cluster1 ++ "\n" ++
      format_params_info cps.1 ++ "\n\n" ++
      "---\n\n" ++
      "## Cluster 2 Parameter Definitions: " ++ cluster2 ++ "\n" ++
      format_params_info cps.2 ++ "\n\n" ++
      "---\n\n" ++
      "## Code Contexts\n\n" ++
      "This cluster pair appears in **" ++ toString pair_task.contexts.length ++
      "** code context(s):\n\n"
    some (header ++ renderContexts cluster1 cluster2 1 pair_task.contexts ++ promptTail)

/-- One coupling record of a judgment, the dict the Aggregator reads
(param1, param2, the two cluster attributes, type, description, rule
and confidence). -/
structure Coupling where
  param1 : String
  param2 : String
  param1_cluster : String
  param2_cluster : String
  type : String
  description : String
  rule : String
  confidence : String
deriving Repr, DecidableEq

/-- Python defaultdict(int) increment d[k] += 1: an existing key keeps
its position, a new key is appended with count one. -/
def bumpCount {κ : Type} [DecidableEq κ] (k : κ) : List (κ × Nat) → List (κ × Nat)
  | [] => [(k, 1)]
  | (k0, n) :: t => if k0 = k then (k0, n + 1) :: t else (k0, n) :: bumpCount k t

/-- The statistical summary dict of CouplingExtractor.generate_summary. -/
structure Summary where
  total_couplings : Nat
  unique_parameters : Nat
  unique_cluster_pairs : Nat
  by_type : List (String × Nat)
  by_confidence : List (String × Nat)
  by_cluster_pair : List ((String × String) × Nat)
  high_confidence_count : Nat
  medium_confidence_count : Nat
  low_confidence_count : Nat
deriving Repr, DecidableEq

/-- CouplingExtractor.generate_summary: one loop filling the three count
dicts (the cluster-pair key is the sorted pair), a second loop
collecting the distinct nonempty parameter names, then the summary
record with the three confidence counts read back with default zero. -/
def generate_summary (couplings : List Coupling) : Summary :=
  let counts := couplings.foldl (fun acc c =>
    (bumpCount c.type acc.1,
     bumpCount c.confidence acc.2.1,
     bumpCount (if c.param1_cluster ≤ c.param2_cluster
        then (c.param1_cluster, c.param2_cluster)
        else (c.param2_cluster, c.param1_cluster)) acc.2.2))
    (([] : List (String × Nat)), ([] : List (String × Nat)),
     ([] : List ((String × String) × Nat)))
  let conf_counts := counts.2.1
  let unique_params := couplings.foldl (fun s c =>
    let s1 := if !c.param1.isEmpty then setInsert c.param1 s else s
    if !c.param2.isEmpty then setInsert c.param2 s1 else s1) []
  { total_couplings := couplings.length
    unique_parameters := unique_params.length
    unique_cluster_pairs := counts.2.2.length
    by_type := counts.1
    by_confidence := conf_counts
    by_cluster_pair := counts.2.2
    high_confidence_count := (alookup "high" conf_counts).getD 0
    medium_confidence_count := (alookup "medium" conf_counts).getD 0
    low_confidence_count := (alookup "low" conf_counts).getD 0 }

/-- The attribute dict of one directed edge of the coupling graph. -/
structure GraphEdgeAttrs where
  type : String
  description : String
  rule : String
  confidence : String
deriving Repr, DecidableEq

/-- The networkx DiGraph of CouplingExtractor.build_graph, reduced to
the data the method writes: nodes in insertion order with their cluster
attribute, directed edges in insertion order with their attribute dict. -/
structure CouplingGraph where
  nodes : List (String × String)
  edges : List ((String × String) × GraphEdgeAttrs)
deriving Repr, DecidableEq

/-- Python dict assignment for pair keys, the edge store of the graph. -/
def upsertPair {β : Type} (k : String × String) (v : β) :
    List ((String × String) × β) → List ((String × String) × β)
  | [] => [(k, v)]
  | (k0, v0) :: t => if k0 = k then (k, v) :: t else (k0, v0) :: upsertPair k v t

/-- One iteration of build_graph: when both parameter names are nonempty
(Python truthiness), add_node both parameters with their cluster
attribute, then add_edge the pair. networkx add_node on an existing node
UPDATES its attribute dict, hence the upserts. -/
def graphStep (G : CouplingGraph) (c : Coupling) : CouplingGraph :=
  if !c.param1.isEmpty && !c.param2.isEmpty then
    let n1 := upsert c.param1 c.param1_cluster G.nodes
    let n2 := upsert c.param2 c.param2_cluster n1
    { nodes := n2
      edges := upsertPair (c.param1, c.param2)
        ⟨c.type, c.description, c.rule, c.confidence⟩ G.edges }
  else G

/-- CouplingExtractor.build_graph over the coupling records. -/
def build_graph (couplings : List Coupling) : CouplingGraph :=
  couplings.foldl graphStep ⟨[], []⟩

/-- First-some choice, for describing which write a dict key ends up
holding. -/
def optOr (a b : Option String) : Option String :=
  match a with
  | some v => some v
  | none => b

/-- The cluster attribute the record list assigns to parameter p, with
later records taking precedence and the param2 write of a record
following its param1 write. -/
def lastAssignedCluster (p : String) : List Coupling → Option String
  | [] => none
  | c :: t =>
    optOr (lastAssignedCluster p t)
      (if !c.param1.isEmpty && !c.param2.isEmpty then
        (if c.param2 = p then some c.param2_cluster
         else if c.param1 = p then some c.param1_cluster
         else none)
       else none)

/-- The analysis dict of one LLM judgment. -/
structure Analysis where
  has_coupling : Bool
  analysis_summary : String
  couplings : List Coupling
deriving Repr, DecidableEq

/-- One result record of LLMCouplingAnalyzer.analyze_all, the input of
build_coupling_matrix. -/
structure LLMResult where
  cluster_pair : String × String
  analysis : Analysis
  context_count : Nat
  has_intra_file : Bool
  has_inter_file : Bool
deriving Repr, DecidableEq

/-- One inner cell of the coupling matrix: the initial three-key dict,
or the seven-key coupling_info dict a result fills in (has_coupling is
false in the first form and true in the second). -/
inductive MatrixCell where
  | init
  | filled (coupling_count context_count : Nat) (has_intra_file has_inter_file : Bool)
      (summary : String) (couplings : List Coupling)
deriving Repr, DecidableEq

/-- The used-cluster set inferred from the results when the caller
passes none: both ends of every result pair, in discovery order. -/
def inferUsed (llm_results : List LLMResult) : List String :=
  llm_results.foldl (fun s r =>
    setInsert r.cluster_pair.2 (setInsert r.cluster_pair.1 s)) []

/-- The initial matrix: a nested dict comprehension over cluster_list
with every cell the empty coupling info. -/
def initMatrix (cluster_list : List String) :
    List (String × List (String × MatrixCell)) :=
  cluster_list.map (fun c1 => (c1, cluster_list.map (fun c2 => (c2, MatrixCell.init))))

/-- The assignment matrix[c1][c2] = cell: reading matrix[c1] raises
KeyError when c1 is not an outer key; the inner assignment always
succeeds. -/
def setMatrixCell (m : List (String × List (String × MatrixCell))) (c1 c2 : String)
    (cell : MatrixCell) : Except String (List (String × List (String × MatrixCell))) :=
  match alookup c1 m with
  | none => Except.error "KeyError"
  | some inner => Except.ok (upsert c1 (upsert c2 cell inner) m)

/-- The symmetric fill of one result into the matrix. -/
def fillStep (m : List (String × List (String × MatrixCell))) (r : LLMResult) :
    Except String (List (String × List (String × MatrixCell))) :=
  let couplings := r.analysis.couplings
  let cell := MatrixCell.filled couplings.length r.context_count r.has_intra_file
    r.has_inter_file r.analysis.analysis_summary couplings
  match setMatrixCell m r.cluster_pair.1 r.cluster_pair.2 cell with
  | Except.error e => Except.error e
  | Except.ok m1 => setMatrixCell m1 r.cluster_pair.2 r.cluster_pair.1 cell

/-- The fill loop over the results. -/
def fillAll (m : List (String × List (String × MatrixCell))) :
    List LLMResult → Except String (List (String × List (String × MatrixCell)))
  | [] => Except.ok m
  | r :: t =>
    match fillStep m r with
    | Except.error e => Except.error e
    | Except.ok m1 => fillAll m1 t

/-- A Python value that is either an int or a list of coupling lists,
the two shapes the statistics step of build_coupling_matrix confuses. -/
inductive PyVal where
  | int (n : Nat)
  | list (l : List (List Coupling))
deriving Repr, DecidableEq

/-- Python + between the running sum and a list item: adding a list to
an int raises TypeError, list concatenation succeeds. -/
def pyAdd (acc : PyVal) (x : List Coupling) : Except String PyVal :=
  match acc with
  | PyVal.int _ => Except.error "TypeError"
  | PyVal.list l => Except.ok (PyVal.list (l ++ [x]))

/-- Python sum(items, 0) over the per-result coupling lists. -/
def pySum (acc : PyVal) : List (List Coupling) → Except String PyVal
  | [] => Except.ok acc
  | x :: t =>
    match pyAdd acc x with
    | Except.error e => Except.error e
    | Except.ok acc1 => pySum acc1 t

/-- Iterating a Python value: an int is not iterable. -/
def pyIterList : PyVal → Except String (List (List Coupling))
  | PyVal.int _ => Except.error "TypeError"
  | PyVal.list l => Except.ok l

/-- The statistics step of build_coupling_matrix, lines 976 and 977 of
couple_extractor.py: sum the per-result coupling lists starting from the
int zero, then iterate the total to count its couplings. -/
def statsTotals (llm_results : List LLMResult) : Except String Nat :=
  match pySum (PyVal.int 0) (llm_results.map (fun r => r.analysis.couplings)) with
  | Except.error e => Except.error e
  | Except.ok total_couplings =>
    match pyIterList total_couplings with
    | Except.error e => Except.error e
    | Except.ok items => Except.ok ((items.map List.length).foldl (fun a b => a + b) 0)

/-- build_coupling_matrix of couple_extractor.py: infer the used
clusters when none are given, sort them, build the initial nested dict,
fill every result symmetrically, then run the statistics step before
returning the matrix. An uncaught Python exception is the error case. -/
def build_coupling_matrix (llm_results : List LLMResult)
    (clusters_def : List (String × List String)) (used_clusters : Option (List String)) :
    Except String (List (String × List (String × MatrixCell))) :=
  let used :=
    match used_clusters with
    | none => inferUsed llm_results
    | some u => u
  let cluster_list := sortStrings used
  let matrix := initMatrix cluster_list
  match fillAll matrix llm_results with
  | Except.error e => Except.error e
  | Except.ok m =>
    match statsTotals llm_results with
    | Except.error e => Except.error e
    | Except.ok _total => Except.ok m

end Params

namespace Params

/-! Helper lemmas about the embedded Python string primitives. -/

theorem lstrip_cons_of_nonspace {a : Char} (h : pyIsSpace a = false) (l : List Char) :
    lstrip (a :: l) = a :: l := by
  simp [lstrip, List.dropWhile_cons, h]

theorem rstrip_cons (a : Char) (t : List Char) :
    rstrip (a :: t) =
      if (rstrip t).isEmpty then (if pyIsSpace a then [] else [a]) else a :: rstrip t := rfl

theorem rstrip_append_cons (P : List Char) {c : Char} (hc : pyIsSpace c = false)
    (Q : List Char) : rstrip (P ++ c :: Q) = P ++ c :: rstrip Q := by
  induction P with
  | nil =>
    simp only [List.nil_append, rstrip_cons]
    cases hq : rstrip Q with
    | nil => simp [hc]
    | cons x xs => simp
  | cons a P ih =>
    simp only [List.cons_append, rstrip_cons, ih]
    have hne : (P ++ c :: rstrip Q).isEmpty = false := by cases P <;> rfl
    simp [hne]

theorem rstrip_idem (l : List Char) : rstrip (rstrip l) = rstrip l := by
  induction l with
  | nil => rfl
  | cons a t ih =>
    cases hq : rstrip t with
    | nil =>
      have h1 : rstrip (a :: t) = if pyIsSpace a then [] else [a] := by
        rw [rstrip_cons, hq]; rfl
      rw [h1]
      cases hs : pyIsSpace a
      · simp [rstrip_cons, rstrip, hs]
      · simp [rstrip]
    | cons x xs =>
      have h1 : rstrip (a :: t) = a :: x :: xs := by
        rw [rstrip_cons, hq]; rfl
      rw [h1]
      have h2 : rstrip (x :: xs) = x :: xs := by rw [hq] at ih; exact ih
      rw [rstrip_cons, h2]
      rfl

theorem strip_rstrip (l : List Char) : strip (rstrip l) = strip l := by
  simp [strip, rstrip_idem]

theorem strip_cons_of_space {a : Char} (h : pyIsSpace a = true) (l : List Char) :
    strip (a :: l) = strip l := by
  simp only [strip, rstrip_cons]
  cases hq : rstrip l with
  | nil => simp [h]
  | cons x xs => simp [lstrip, h]

theorem splitFirst_eq (c : Char) (P Q : List Char) (h : ∀ a ∈ P, a ≠ c) :
    splitFirst c (P ++ c :: Q) = some (P, Q) := by
  induction P with
  | nil => simp [splitFirst]
  | cons a P ih =>
    have ha : a ≠ c := h a (List.mem_cons_self a P)
    have ih2 := ih (fun x hx => h x (List.mem_cons_of_mem a hx))
    simp only [List.cons_append, splitFirst, if_neg ha, List.append_eq, ih2]

theorem word_nonspace {c : Char} (h : isWordChar c = true) : pyIsSpace c = false := by
  cases hs : pyIsSpace c
  · rfl
  · exfalso
    simp only [pyIsSpace, Bool.or_eq_true, decide_eq_true_eq] at hs
    rcases hs with ((((h1 | h1) | h1) | h1) | h1) | h1 <;> subst h1 <;>
      exact absurd h (by decide)

theorem word_ne_lparen {c : Char} (h : isWordChar c = true) : c ≠ '(' := by
  intro e; subst e; exact absurd h (by decide)

theorem word_ne_rparen {c : Char} (h : isWordChar c = true) : c ≠ ')' := by
  intro e; subst e; exact absurd h (by decide)

theorem word_ne_hash {c : Char} (h : isWordChar c = true) : c ≠ '#' := by
  intro e; subst e; exact absurd h (by decide)

theorem tryTail_cons_not_lparen {c : Char} (hc : pyIsSpace c = false) (hne : c ≠ '(')
    (X : List Char) : tryTail (c :: X) = none := by
  unfold tryTail
  rw [List.dropWhile_cons_of_neg (by simp [hc])]
  simp [hne]

theorem tryTail_space_cons_not_lparen {c : Char} (hc : pyIsSpace c = false) (hne : c ≠ '(')
    (X : List Char) : tryTail (' ' :: c :: X) = none := by
  unfold tryTail
  rw [List.dropWhile_cons_of_pos (by decide), List.dropWhile_cons_of_neg (by simp [hc])]
  simp [hne]

theorem takeWhile_all_append (p : Char → Bool) (X Y : List Char)
    (h : ∀ a ∈ X, p a = true) :
    List.takeWhile p (X ++ Y) = X ++ List.takeWhile p Y := by
  induction X with
  | nil => simp
  | cons a X ih =>
    have ha : p a = true := h a (List.mem_cons_self _ _)
    simp only [List.cons_append, List.takeWhile_cons, ha, if_true,
      ih (fun b hb => h b (List.mem_cons_of_mem _ hb))]

theorem dropWhile_all_append (p : Char → Bool) (X Y : List Char)
    (h : ∀ a ∈ X, p a = true) :
    List.dropWhile p (X ++ Y) = List.dropWhile p Y := by
  induction X with
  | nil => simp
  | cons a X ih =>
    have ha : p a = true := h a (List.mem_cons_self _ _)
    simp only [List.cons_append, List.dropWhile_cons, ha, if_true,
      ih (fun b hb => h b (List.mem_cons_of_mem _ hb))]

theorem tryRange_at (R : List Char) (hR : R ≠ []) (hRc : ∀ c ∈ R, c ≠ ')') :
    tryRange (' ' :: ('(' :: (R ++ [')']))) = R := by
  have hRE : R.isEmpty = false := by
    cases R with
    | nil => exact absurd rfl hR
    | cons a l => rfl
  have hpos : ∀ a ∈ R, notRParen a = true := by
    intro a ha; simp [notRParen, hRc a ha]
  have hsp : List.takeWhile pyIsSpace (' ' :: ('(' :: (R ++ [')']))) = [' '] := by
    rw [List.takeWhile_cons_of_pos (show pyIsSpace ' ' = true by decide),
      List.takeWhile_cons_of_neg (show ¬ pyIsSpace '(' = true by decide)]
  have hdw : List.dropWhile pyIsSpace (' ' :: ('(' :: (R ++ [')'])))
      = '(' :: (R ++ [')']) := by
    rw [List.dropWhile_cons_of_pos (show pyIsSpace ' ' = true by decide),
      List.dropWhile_cons_of_neg (show ¬ pyIsSpace '(' = true by decide)]
  have hrg : List.takeWhile notRParen (R ++ [')']) = R := by
    rw [takeWhile_all_append notRParen R [')'] hpos,
      List.takeWhile_cons_of_neg (show ¬ notRParen ')' = true by decide)]
    simp
  have hrd : List.dropWhile notRParen (R ++ [')']) = [')'] := by
    rw [dropWhile_all_append notRParen R [')'] hpos,
      List.dropWhile_cons_of_neg (show ¬ notRParen ')' = true by decide)]
  simp only [tryRange, hsp, hdw, hrg, hrd, List.isEmpty_cons, Bool.false_eq_true, if_false,
    if_pos rfl, hRE, if_true]

theorem tryTail_at (T R : List Char) (v0 : Char) (V' : List Char)
    (hTne : T ≠ []) (hTc : ∀ c ∈ T, isWordChar c = true)
    (hVc : ∀ c ∈ v0 :: V', pyIsSpace c = false)
    (hRne : R ≠ []) (hRc : ∀ c ∈ R, c ≠ ')') :
    tryTail ('(' :: (T ++ (')' :: (' ' :: (v0 :: (V' ++ (' ' :: ('(' :: (R ++ [')'])))))))))
      = some (T, v0 :: V', R) := by
  have hTE : T.isEmpty = false := by
    cases T with
    | nil => exact absurd rfl hTne
    | cons a l => rfl
  have hv0 : pyIsSpace v0 = false := hVc v0 (List.mem_cons_self _ _)
  have hTw : ∀ a ∈ T, isWordChar a = true := hTc
  have hVpos : ∀ a ∈ V', nonSpace a = true := by
    intro a ha
    simp [nonSpace, hVc a (List.mem_cons_of_mem _ ha)]
  have h1 : List.dropWhile pyIsSpace
      ('(' :: (T ++ (')' :: (' ' :: (v0 :: (V' ++ (' ' :: ('(' :: (R ++ [')'])))))))))
      = '(' :: (T ++ (')' :: (' ' :: (v0 :: (V' ++ (' ' :: ('(' :: (R ++ [')'])))))))) :=
    List.dropWhile_cons_of_neg (show ¬ pyIsSpace '(' = true by decide)
  have h2 : List.takeWhile isWordChar
      (T ++ (')' :: (' ' :: (v0 :: (V' ++ (' ' :: ('(' :: (R ++ [')'])))))))) = T := by
    rw [takeWhile_all_append isWordChar T _ hTw,
      List.takeWhile_cons_of_neg (show ¬ isWordChar ')' = true by decide)]
    simp
  have h3 : List.dropWhile isWordChar
      (T ++ (')' :: (' ' :: (v0 :: (V' ++ (' ' :: ('(' :: (R ++ [')']))))))))
      = ')' :: (' ' :: (v0 :: (V' ++ (' ' :: ('(' :: (R ++ [')'])))))) := by
    rw [dropWhile_all_append isWordChar T _ hTw,
      List.dropWhile_cons_of_neg (show ¬ isWordChar ')' = true by decide)]
  have h4 : List.takeWhile pyIsSpace
      (' ' :: (v0 :: (V' ++ (' ' :: ('(' :: (R ++ [')'])))))) = [' '] := by
    rw [List.takeWhile_cons_of_pos (show pyIsSpace ' ' = true by decide),
      List.takeWhile_cons_of_neg (show ¬ pyIsSpace v0 = true by simp [hv0])]
  have h5 : List.dropWhile pyIsSpace
      (' ' :: (v0 :: (V' ++ (' ' :: ('(' :: (R ++ [')']))))))
      = v0 :: (V' ++ (' ' :: ('(' :: (R ++ [')'])))) := by
    rw [List.dropWhile_cons_of_pos (show pyIsSpace ' ' = true by decide),
      List.dropWhile_cons_of_neg (show ¬ pyIsSpace v0 = true by simp [hv0])]
  have h6 : List.takeWhile nonSpace (v0 :: (V' ++ (' ' :: ('(' :: (R ++ [')'])))))
      = v0 :: V' := by
    rw [List.takeWhile_cons_of_pos (show nonSpace v0 = true by simp [nonSpace, hv0]),
      takeWhile_all_append nonSpace V' _ hVpos,
      List.takeWhile_cons_of_neg (show ¬ nonSpace ' ' = true by decide)]
    simp
  have h7 : List.dropWhile nonSpace (v0 :: (V' ++ (' ' :: ('(' :: (R ++ [')'])))))
      = ' ' :: ('(' :: (R ++ [')'])) := by
    rw [List.dropWhile_cons_of_pos (show nonSpace v0 = true by simp [nonSpace, hv0]),
      dropWhile_all_append nonSpace V' _ hVpos,
      List.dropWhile_cons_of_neg (show ¬ nonSpace ' ' = true by decide)]
  have h8 : tryRange (' ' :: ('(' :: (R ++ [')']))) = R := tryRange_at R hRne hRc
  simp only [tryTail, h1, h2, h3, h4, h5, h6, h7, h8, List.isEmpty_cons, hTE,
    Bool.false_eq_true, if_false, if_pos rfl, if_true]

theorem findNameLoop_desc (body : List Char) (target j : Nat) (hle : target ≤ j)
    (hfail : ∀ i, target < i → i ≤ j → tryTail (body.drop i) = none) :
    findNameLoop body j = findNameLoop body target := by
  induction j with
  | zero =>
    have : target = 0 := Nat.le_zero.mp hle
    rw [this]
  | succ j ih =>
    rcases Nat.lt_or_ge target (j + 1) with hlt | hge
    · have h1 : tryTail (body.drop (j + 1)) = none := hfail (j + 1) hlt (Nat.le_refl _)
      have h2 : findNameLoop body (j + 1) = findNameLoop body j := by
        rw [findNameLoop, h1]
      rw [h2]
      exact ih (Nat.lt_succ_iff.mp hlt) (fun i hi hij => hfail i hi (Nat.le_succ_of_le hij))
    · have : target = j + 1 := Nat.le_antisymm hle hge
      rw [this]

/-- CLAIM C5: parsing a valid declaration line of the textual pattern
NAME(TYPE) V (R) # C yields a ParameterDefinition reproducing NAME,
TYPE, V and R exactly, and recovering C up to leading and trailing
whitespace.  Validity of the components: NAME is nonempty without
whitespace, parentheses or hash; TYPE is a nonempty run of word
characters; V is nonempty without whitespace or hash and does not begin
with an opening parenthesis; R is nonempty without closing parenthesis
or hash.  The witness instantiates this at the catalog line
FDAE_WIDTH(int) 32 (1-1024) # Data width from the spec example. -/
theorem c5_parse_param_line_roundtrip
    (N T V R C : List Char)
    (hN : N ≠ [] ∧ ∀ c ∈ N, pyIsSpace c = false ∧ c ≠ '(' ∧ c ≠ ')' ∧ c ≠ '#')
    (hT : T ≠ [] ∧ ∀ c ∈ T, isWordChar c = true)
    (hV : V ≠ [] ∧ (∀ c ∈ V, pyIsSpace c = false ∧ c ≠ '#') ∧ V.head? ≠ some '(')
    (hR : R ≠ [] ∧ ∀ c ∈ R, c ≠ ')' ∧ c ≠ '#') :
    parse_param_line_list
        (N ++ ('(' :: (T ++ (')' :: (' ' :: (V ++ (' ' :: ('(' ::
          (R ++ (')' :: (' ' :: ('#' :: (' ' :: C)))))))))))))
      = some ⟨String.mk N, String.mk T, String.mk V, String.mk R,
          String.mk (strip C)⟩ := by
  obtain ⟨hNne, hNc⟩ := hN
  obtain ⟨hTne, hTc⟩ := hT
  obtain ⟨hVne, hVc, hVhd⟩ := hV
  obtain ⟨hRne, hRc⟩ := hR
  obtain ⟨n0, N', rfl⟩ : ∃ a l, N = a :: l := by
    cases N with
    | nil => exact absurd rfl hNne
    | cons a l => exact ⟨a, l, rfl⟩
  obtain ⟨v0, V', rfl⟩ : ∃ a l, V = a :: l := by
    cases V with
    | nil => exact absurd rfl hVne
    | cons a l => exact ⟨a, l, rfl⟩
  have hn0 := hNc n0 (List.mem_cons_self _ _)
  have hv0 := hVc v0 (List.mem_cons_self _ _)
  have hv0p : v0 ≠ '(' := by simpa using hVhd
  -- the comment tail after stripping on the right
  -- facts about every character of the pre-hash prefix
  have hP : ∀ a ∈ n0 :: (N' ++ ('(' :: (T ++ (')' :: (' ' :: (v0 :: (V' ++
      (' ' :: ('(' :: (R ++ [')', ' '])))))))))), a ≠ '#' := by
    intro a ha
    simp only [List.mem_cons, List.mem_append, List.not_mem_nil, or_false] at ha
    rcases ha with rfl | ha | rfl | ha | rfl | rfl | rfl | ha | rfl | rfl | ha | rfl | rfl
    · exact hn0.2.2.2
    · exact (hNc a (List.mem_cons_of_mem _ ha)).2.2.2
    · decide
    · exact word_ne_hash (hTc a ha)
    · decide
    · decide
    · exact hv0.2
    · exact (hVc a (List.mem_cons_of_mem _ ha)).2
    · decide
    · decide
    · exact (hRc a ha).2
    · decide
    · decide
  -- compute the stripped line
  have S1 : strip (n0 :: (N' ++ ('(' :: (T ++ (')' :: (' ' :: (v0 :: (V' ++ (' ' :: ('(' :: (R ++ (')' :: (' ' :: ('#' :: (' ' :: C)))))))))))))))
      = (n0 :: (N' ++ ('(' :: (T ++ (')' :: (' ' :: (v0 :: (V' ++ (' ' :: ('(' :: (R ++ (')' :: (' ' :: ('#' :: rstrip (' ' :: C))))))))))))))) := by
    have e1 : (n0 :: (N' ++ ('(' :: (T ++ (')' :: (' ' :: (v0 :: (V' ++ (' ' :: ('(' :: (R ++ (')' :: (' ' :: ('#' :: (' ' :: C))))))))))))))) = (n0 :: (N' ++ ('(' :: (T ++ (')' :: (' ' :: (v0 :: (V' ++ (' ' :: ('(' :: (R ++ [')', ' ']))))))))))) ++ ('#' :: (' ' :: C)) := by
      simp
    rw [e1]
    show lstrip (rstrip _) = _
    rw [rstrip_append_cons _ (show pyIsSpace '#' = false by decide) (' ' :: C)]
    rw [List.cons_append, lstrip_cons_of_nonspace hn0.1]
    simp
  have Ssplit : splitFirst '#' (n0 :: (N' ++ ('(' :: (T ++ (')' :: (' ' :: (v0 :: (V' ++
        (' ' :: ('(' :: (R ++ (')' :: (' ' :: ('#' :: rstrip (' ' :: C)))))))))))))))
      = some (n0 :: (N' ++ ('(' :: (T ++ (')' :: (' ' :: (v0 :: (V' ++
        (' ' :: ('(' :: (R ++ [')', ' '])))))))))), rstrip (' ' :: C)) := by
    have h := splitFirst_eq '#' (n0 :: (N' ++ ('(' :: (T ++ (')' :: (' ' :: (v0 :: (V' ++
      (' ' :: ('(' :: (R ++ [')', ' '])))))))))))  (rstrip (' ' :: C)) hP
    simpa using h
  -- strip of the pre-hash part
  have S2 : strip (n0 :: (N' ++ ('(' :: (T ++ (')' :: (' ' :: (v0 :: (V' ++
        (' ' :: ('(' :: (R ++ [')', ' '])))))))))))
      = n0 :: (N' ++ ('(' :: (T ++ (')' :: (' ' :: (v0 :: (V' ++
        (' ' :: ('(' :: (R ++ [')'])))))))))) := by
    have e2 : n0 :: (N' ++ ('(' :: (T ++ (')' :: (' ' :: (v0 :: (V' ++
        (' ' :: ('(' :: (R ++ [')', ' '])))))))))
        ) = (n0 :: (N' ++ ('(' :: (T ++ (')' :: (' ' :: (v0 :: (V' ++
          (' ' :: ('(' :: R)))))))))) ++ (')' :: [' ']) := by
      simp
    rw [e2]
    show lstrip (rstrip _) = _
    rw [rstrip_append_cons _ (show pyIsSpace ')' = false by decide) [' ']]
    rw [show rstrip [' '] = [] from rfl]
    rw [List.cons_append, lstrip_cons_of_nonspace hn0.1]
    simp
  -- the leading non-whitespace run of the body
  have S3 : List.takeWhile nonSpace (n0 :: (N' ++ ('(' :: (T ++ (')' :: (' ' :: (v0 :: (V' ++
        (' ' :: ('(' :: (R ++ [')'])))))))))))
      = n0 :: (N' ++ ('(' :: (T ++ [')']))) := by
    have e3 : n0 :: (N' ++ ('(' :: (T ++ (')' :: (' ' :: (v0 :: (V' ++
        (' ' :: ('(' :: (R ++ [')']))))))))))
        = (n0 :: (N' ++ ('(' :: (T ++ [')'])))) ++ (' ' :: (v0 :: (V' ++
          (' ' :: ('(' :: (R ++ [')'])))))) := by
      simp
    rw [e3]
    rw [takeWhile_all_append nonSpace _ _ ?pos]
    case pos =>
      intro a ha
      simp only [List.mem_cons, List.mem_append, List.not_mem_nil, or_false] at ha
      rcases ha with rfl | ha | rfl | ha | rfl
      · simp [nonSpace, hn0.1]
      · simp [nonSpace, (hNc a (List.mem_cons_of_mem _ ha)).1]
      · decide
      · simp [nonSpace, word_nonspace (hTc a ha)]
      · decide
    rw [List.takeWhile_cons_of_neg (show ¬ nonSpace ' ' = true by decide)]
    simp
  -- dropping into the body at the name boundary
  have S7 : List.drop (N'.length + 1) (n0 :: (N' ++ ('(' :: (T ++ (')' :: (' ' :: (v0 :: (V' ++
        (' ' :: ('(' :: (R ++ [')'])))))))))))
      = '(' :: (T ++ (')' :: (' ' :: (v0 :: (V' ++ (' ' :: ('(' :: (R ++ [')'])))))))) := by
    rw [List.drop_succ_cons]
    exact List.drop_left N' _
  have hfail : ∀ i, N'.length + 1 < i → i ≤ N'.length + 1 + (T.length + 2) →
      tryTail (List.drop i (n0 :: (N' ++ ('(' :: (T ++ (')' :: (' ' :: (v0 :: (V' ++
        (' ' :: ('(' :: (R ++ [')'])))))))))))) = none := by
    intro i hi1 hi2
    obtain ⟨d, rfl⟩ : ∃ d, i = N'.length + 1 + d := ⟨i - (N'.length + 1), by omega⟩
    have hd1 : 1 ≤ d := by omega
    have hd2 : d ≤ T.length + 2 := by omega
    have hdrop : List.drop (N'.length + 1 + d) (n0 :: (N' ++ ('(' :: (T ++ (')' :: (' ' :: (v0 :: (V' ++
          (' ' :: ('(' :: (R ++ [')'])))))))))))
        = List.drop d ('(' :: (T ++ (')' :: (' ' :: (v0 :: (V' ++
          (' ' :: ('(' :: (R ++ [')']))))))))) := by
      rw [← List.drop_drop, S7]
    rw [hdrop]
    rcases Nat.lt_or_ge d (T.length + 1) with hc | hc
    · -- the drop lands inside TYPE
      have hd3 : d - 1 < T.length := by omega
      have e4 : List.drop d ('(' :: (T ++ (')' :: (' ' :: (v0 :: (V' ++
          (' ' :: ('(' :: (R ++ [')'])))))))))
          = List.drop (d - 1) T ++ (')' :: (' ' :: (v0 :: (V' ++
            (' ' :: ('(' :: (R ++ [')']))))))) := by
        rw [show d = (d - 1) + 1 from by omega, List.drop_succ_cons]
        rw [List.drop_append_eq_append_drop]
        rw [show d - 1 - T.length = 0 from by omega]
        rfl
      rw [e4]
      obtain ⟨c, rest, heq⟩ : ∃ c rest, List.drop (d - 1) T = c :: rest := by
        cases hx : List.drop (d - 1) T with
        | nil =>
          exfalso
          have := List.length_drop (d - 1) T
          rw [hx] at this
          simp at this
          omega
        | cons c rest => exact ⟨c, rest, rfl⟩
      have hcT : c ∈ T := by
        have : c ∈ List.drop (d - 1) T := by rw [heq]; exact List.mem_cons_self _ _
        exact List.drop_subset _ _ this
      rw [heq, List.cons_append]
      exact tryTail_cons_not_lparen (word_nonspace (hTc c hcT)) (word_ne_lparen (hTc c hcT)) _
    · have : d = T.length + 1 ∨ d = T.length + 2 := by omega
      rcases this with rfl | rfl
      · -- the drop lands on the closing parenthesis of the type
        have e5 : List.drop (T.length + 1) ('(' :: (T ++ (')' :: (' ' :: (v0 :: (V' ++
            (' ' :: ('(' :: (R ++ [')'])))))))))
            = ')' :: (' ' :: (v0 :: (V' ++ (' ' :: ('(' :: (R ++ [')'])))))) := by
          rw [List.drop_succ_cons]
          exact List.drop_left T _
        rw [e5]
        exact tryTail_cons_not_lparen (by decide) (by decide) _
      · -- the drop lands on the space before the value
        have e6 : List.drop (T.length + 2) ('(' :: (T ++ (')' :: (' ' :: (v0 :: (V' ++
            (' ' :: ('(' :: (R ++ [')'])))))))))
            = ' ' :: (v0 :: (V' ++ (' ' :: ('(' :: (R ++ [')']))))) := by
          rw [show T.length + 2 = (T.length + 1) + 1 from by omega, List.drop_succ_cons]
          rw [List.drop_append_eq_append_drop]
          rw [show T.length + 1 - T.length = 1 from by omega]
          simp
        rw [e6]
        exact tryTail_space_cons_not_lparen hv0.1 hv0p _
  have S8 : List.take (N'.length + 1) (n0 :: (N' ++ ('(' :: (T ++ (')' :: (' ' :: (v0 :: (V' ++
        (' ' :: ('(' :: (R ++ [')'])))))))))))
      = n0 :: N' := by
    rw [List.take_succ_cons, List.take_left]
  have S9 : strip (rstrip (' ' :: C)) = strip C := by
    rw [strip_rstrip]
    exact strip_cons_of_space (by decide) C
  -- assemble
  show parse_param_line_list _ = _
  simp only [parse_param_line_list, List.cons_append]
  rw [S1]
  simp only [List.isEmpty_cons, Bool.false_eq_true, if_false, List.head?_cons]
  rw [if_neg (by simp [hn0.2.2.2])]
  rw [Ssplit]
  simp only []
  rw [S2, S3]
  have hlen : (n0 :: (N' ++ ('(' :: (T ++ [')'])))).length = N'.length + 1 + (T.length + 2) := by
    simp
    omega
  rw [hlen]
  rw [findNameLoop_desc _ (N'.length + 1) _ (by omega) hfail]
  rw [findNameLoop, S7]
  rw [tryTail_at T R v0 V' hTne hTc (fun c hc => (hVc c hc).1) hRne (fun c hc => (hRc c hc).1)]
  rw [S8, S9]

/-- Witness for C5 at the spec example line: the catalog line
FDAE_WIDTH(int) 32 (1-1024) # Data width parses to the expected
ParameterDefinition. -/
theorem c5_parse_param_line_roundtrip_witness :
    parse_param_line "FDAE_WIDTH(int) 32 (1-1024) # Data width" =
      some ⟨"FDAE_WIDTH", "int", "32", "1-1024", "Data width"⟩ := by
  have h := c5_parse_param_line_roundtrip "FDAE_WIDTH".toList "int".toList "32".toList
    "1-1024".toList "Data width".toList (by decide) (by decide) (by decide) (by decide)
  have e : "FDAE_WIDTH(int) 32 (1-1024) # Data width".toList
      = "FDAE_WIDTH".toList ++ ('(' :: ("int".toList ++ (')' :: (' ' :: ("32".toList ++
        (' ' :: ('(' :: ("1-1024".toList ++ (')' :: (' ' :: ('#' ::
        (' ' :: "Data width".toList)))))))))))) := by decide
  show parse_param_line_list _ = _
  rw [e, h]
  decide

/-! Lemmas for the Text Scanner claims. -/

theorem insertSorted_perm (x : String) (l : List String) :
    List.Perm (insertSorted x l) (x :: l) := by
  induction l with
  | nil => exact List.Perm.refl _
  | cons y t ih =>
    simp only [insertSorted]
    by_cases h : x ≤ y
    · rw [if_pos h]
    · rw [if_neg h]
      exact (ih.cons y).trans (List.Perm.swap x y t)

theorem sortStrings_perm (l : List String) : List.Perm (sortStrings l) l := by
  induction l with
  | nil => exact List.Perm.refl _
  | cons x t ih =>
    exact (insertSorted_perm x (sortStrings t)).trans (ih.cons x)

theorem matchStep_fold_fst (cleaned : List Char) (cat : List (String × ParamInfo)) :
    ∀ (params : List String) (acc : List String × List MatchCtx),
      (params.foldl (matchStep cleaned cat) acc).1
        = acc.1 ++ params.filter
            (fun p => (alookup p cat).isSome && !(find_iter cleaned p.toList).isEmpty) := by
  intro params
  induction params with
  | nil => intro acc; simp
  | cons a t ih =>
    intro acc
    rw [List.foldl_cons, ih]
    cases ho : alookup a cat with
    | none =>
      have h1 : matchStep cleaned cat acc a = acc := by simp [matchStep, ho]
      rw [h1]
      simp [List.filter_cons, ho]
    | some v =>
      cases hm : (find_iter cleaned a.toList).isEmpty with
      | true =>
        have hm2 : find_iter cleaned a.toList = [] := by simpa using hm
        have hm3 : find_iter cleaned a.data = [] := hm2
        have h1 : matchStep cleaned cat acc a = acc := by simp [matchStep, ho, hm3]
        rw [h1]
        simp [List.filter_cons, ho, hm3]
      | false =>
        have hm2 : ¬ find_iter cleaned a.toList = [] := by
          intro h
          rw [h] at hm
          exact absurd hm (by decide)
        have hm3 : ¬ find_iter cleaned a.data = [] := hm2
        have h1 : matchStep cleaned cat acc a
            = (acc.1 ++ [a], acc.2 ++ ((find_iter cleaned a.toList).take 3).map
                (fun p => extract_context cleaned p a)) := by
          simp [matchStep, ho, hm3]
        rw [h1]
        simp [List.filter_cons, ho, hm3]

/-- CLAIM C3 counterexample: the claim quantifies over both scanner
variants, but SmartStringMatcher.match_params_in_file (string_filter.py)
consults no Parameter Catalog: it reports the candidate name FOO found
verbatim in the file even though the catalog (here empty) does not
declare it. -/
theorem c3_counterexample :
    (smart_match_params_in_file "f.sv" "FOO" ["FOO"]).matched_params = ["FOO"]
    ∧ alookup "FOO" ([] : List (String × ParamInfo)) = none := by
  exact ⟨by decide, rfl⟩

/-- CLAIM C3 (amended): for the catalog-aware scanner
StringMatcher.match_params_in_file, scanning with the empty candidate
set returns none, and every reported name is present in the Parameter
Catalog; the Smart variant instead returns a non-null zero-match record
on the empty candidate set (its callers filter it out by match_count)
and performs no catalog check. -/
theorem c3_scanner_catalog_restriction :
    (∀ fp content cat, match_params_in_file fp content [] cat = none)
    ∧ (∀ fp content params cat r p,
        match_params_in_file fp content params cat = some r →
        p ∈ r.matched_params → (alookup p cat).isSome = true)
    ∧ (∀ fp content, (smart_match_params_in_file fp content []).matched_params = []
        ∧ (smart_match_params_in_file fp content []).match_count = 0) := by
  refine ⟨?_, ?_, ?_⟩
  · intro fp content cat
    rfl
  · intro fp content params cat r p hsome hp
    simp only [match_params_in_file] at hsome
    by_cases he : (params.foldl (matchStep (remove_noise content.toList) cat)
        (([] : List String), ([] : List MatchCtx))).1.isEmpty
    · rw [if_pos he] at hsome
      exact absurd hsome (by simp)
    · rw [if_neg he] at hsome
      have hr := Option.some.inj hsome
      rw [← hr] at hp
      have hp2 : p ∈ (params.foldl (matchStep (remove_noise content.toList) cat)
          (([] : List String), ([] : List MatchCtx))).1 :=
        (sortStrings_perm _).mem_iff.mp hp
      rw [matchStep_fold_fst] at hp2
      simp only [List.nil_append, List.mem_filter, Bool.and_eq_true] at hp2
      exact hp2.2.1
  · intro fp content
    exact ⟨rfl, rfl⟩

/-- Witness for the amended C3 at a concrete scan: a file containing
FDAE_WIDTH scanned for that one name against a one-entry catalog
reports a name that the catalog indeed declares. -/
theorem c3_scanner_catalog_restriction_witness :
    (alookup "FDAE_WIDTH"
      [("FDAE_WIDTH", ParamInfo.mk "FDAE_WIDTH" "int" "32" "1-1024" "Data width")]).isSome
      = true :=
  c3_scanner_catalog_restriction.2.1 "f.sv" "FDAE_WIDTH" ["FDAE_WIDTH"]
    [("FDAE_WIDTH", ParamInfo.mk "FDAE_WIDTH" "int" "32" "1-1024" "Data width")]
    ⟨"f.sv", ["FDAE_WIDTH"],
      [ParamInfo.mk "FDAE_WIDTH" "int" "32" "1-1024" "Data width"], 1,
      [⟨1, "FDAE_WIDTH".toList, 0, "FDAE_WIDTH"⟩]⟩
    "FDAE_WIDTH" (by decide) (by decide)

/-- CLAIM C4 counterexample: the claim covers both scanner variants,
but SmartStringMatcher.match_params_in_file sets match_count to the
total number of raw occurrences: one candidate name occurring five
times yields match_count 5 with a single distinct matched name. -/
theorem c4_counterexample :
    (smart_match_params_in_file "f.sv" "W W W W W" ["W"]).match_count = 5
    ∧ (smart_match_params_in_file "f.sv" "W W W W W" ["W"]).matched_params.length = 1 := by
  exact ⟨by decide, by decide⟩

/-- CLAIM C4 (amended): for StringMatcher.match_params_in_file
(couple_extractor.py), and a duplicate-free candidate list, match_count
equals the number of distinct matched parameter names: it is the length
of the duplicate-free matched_parameters list, not a raw occurrence
count.  The Smart variant of string_filter.py instead reports the raw
occurrence total. -/
theorem c4_match_count_distinct :
    ∀ fp content params cat r, params.Nodup →
      match_params_in_file fp content params cat = some r →
      r.match_count = r.matched_params.length ∧ r.matched_params.Nodup := by
  intro fp content params cat r hnd hsome
  simp only [match_params_in_file] at hsome
  by_cases he : (params.foldl (matchStep (remove_noise content.toList) cat)
      (([] : List String), ([] : List MatchCtx))).1.isEmpty
  · rw [if_pos he] at hsome
    exact absurd hsome (by simp)
  · rw [if_neg he] at hsome
    have hr := Option.some.inj hsome
    rw [← hr]
    constructor
    · exact ((sortStrings_perm _).length_eq).symm
    · apply ((sortStrings_perm _).nodup_iff).mpr
      rw [matchStep_fold_fst]
      simp only [List.nil_append]
      exact hnd.filter _

/-- Witness for the amended C4 at a concrete scan. -/
theorem c4_match_count_distinct_witness :
    (FileMatchResult.mk "f.sv" ["FDAE_WIDTH"]
        [ParamInfo.mk "FDAE_WIDTH" "int" "32" "1-1024" "Data width"] 1
        [⟨1, "FDAE_WIDTH".toList, 0, "FDAE_WIDTH"⟩]).match_count
      = (FileMatchResult.mk "f.sv" ["FDAE_WIDTH"]
        [ParamInfo.mk "FDAE_WIDTH" "int" "32" "1-1024" "Data width"] 1
        [⟨1, "FDAE_WIDTH".toList, 0, "FDAE_WIDTH"⟩]).matched_params.length
    ∧ (FileMatchResult.mk "f.sv" ["FDAE_WIDTH"]
        [ParamInfo.mk "FDAE_WIDTH" "int" "32" "1-1024" "Data width"] 1
        [⟨1, "FDAE_WIDTH".toList, 0, "FDAE_WIDTH"⟩]).matched_params.Nodup :=
  c4_match_count_distinct "f.sv" "FDAE_WIDTH" ["FDAE_WIDTH"]
    [("FDAE_WIDTH", ParamInfo.mk "FDAE_WIDTH" "int" "32" "1-1024" "Data width")]
    _ (by decide) (by decide)

/-- CLAIM C1: for every dependency edge, the File-Pair strategy emits a
task iff both caller and callee appear in the merged file-to-parameters
map (INTER_FILE), or exactly one side appears and that side has more
than one matched cluster (INTRA_FILE_MULTI_CLUSTER); each edge yields
at most one task, so the task list is no longer than the edge list, and
every dropped edge satisfies the negative condition (neither side
matched, or the single matching side has at most one cluster). -/
theorem c1_file_pair_classification
    (candidates : List (String × List FileEntry)) (dep : DependencyData) (e : DepEdge) :
    ((FilePairBuilder.classifyEdge (FilePairBuilder.build_file_to_params candidates) e).isSome = true
      ↔ (((alookup e.source_path (FilePairBuilder.build_file_to_params candidates)).isSome = true
            ∧ (alookup e.target_path (FilePairBuilder.build_file_to_params candidates)).isSome = true)
        ∨ ((alookup e.source_path (FilePairBuilder.build_file_to_params candidates)).isSome = true
            ∧ alookup e.target_path (FilePairBuilder.build_file_to_params candidates) = none
            ∧ 1 < sideClusterCount (alookup e.source_path (FilePairBuilder.build_file_to_params candidates)))
        ∨ (alookup e.source_path (FilePairBuilder.build_file_to_params candidates) = none
            ∧ (alookup e.target_path (FilePairBuilder.build_file_to_params candidates)).isSome = true
            ∧ 1 < sideClusterCount (alookup e.target_path (FilePairBuilder.build_file_to_params candidates)))))
    ∧ (FilePairBuilder.build_pairs dep candidates).length ≤ dep.module_deps.length
    ∧ (FilePairBuilder.classifyEdge (FilePairBuilder.build_file_to_params candidates) e = none →
        ((alookup e.source_path (FilePairBuilder.build_file_to_params candidates) = none
            ∧ alookup e.target_path (FilePairBuilder.build_file_to_params candidates) = none)
          ∨ ((alookup e.source_path (FilePairBuilder.build_file_to_params candidates)).isSome = true
              ∧ alookup e.target_path (FilePairBuilder.build_file_to_params candidates) = none
              ∧ sideClusterCount (alookup e.source_path (FilePairBuilder.build_file_to_params candidates)) ≤ 1)
          ∨ (alookup e.source_path (FilePairBuilder.build_file_to_params candidates) = none
              ∧ (alookup e.target_path (FilePairBuilder.build_file_to_params candidates)).isSome = true
              ∧ sideClusterCount (alookup e.target_path (FilePairBuilder.build_file_to_params candidates)) ≤ 1))) := by
  refine ⟨?_, List.length_filterMap_le _ _, ?_⟩
  · cases hs : alookup e.source_path (FilePairBuilder.build_file_to_params candidates) with
    | none =>
      cases ht : alookup e.target_path (FilePairBuilder.build_file_to_params candidates) with
      | none => simp [FilePairBuilder.classifyEdge, hs, ht]
      | some bi =>
        by_cases hc : 1 < bi.clusters.length <;>
          simp [FilePairBuilder.classifyEdge, hs, ht, sideClusterCount, hc]
    | some ci =>
      cases ht : alookup e.target_path (FilePairBuilder.build_file_to_params candidates) with
      | none =>
        by_cases hc : 1 < ci.clusters.length <;>
          simp [FilePairBuilder.classifyEdge, hs, ht, sideClusterCount, hc]
      | some bi => simp [FilePairBuilder.classifyEdge, hs, ht]
  · intro hnone
    cases hs : alookup e.source_path (FilePairBuilder.build_file_to_params candidates) with
    | none =>
      cases ht : alookup e.target_path (FilePairBuilder.build_file_to_params candidates) with
      | none => simp
      | some bi =>
        simp only [FilePairBuilder.classifyEdge, hs, ht] at hnone
        by_cases hc : 1 < bi.clusters.length
        · rw [if_pos hc] at hnone
          exact absurd hnone (by simp)
        · simp [sideClusterCount]
          omega
    | some ci =>
      cases ht : alookup e.target_path (FilePairBuilder.build_file_to_params candidates) with
      | none =>
        simp only [FilePairBuilder.classifyEdge, hs, ht] at hnone
        by_cases hc : 1 < ci.clusters.length
        · rw [if_pos hc] at hnone
          exact absurd hnone (by simp)
        · simp [sideClusterCount]
          omega
      | some bi =>
        simp only [FilePairBuilder.classifyEdge, hs, ht] at hnone
        exact absurd hnone (by simp)

/-- Witness for C1 at a concrete dropped edge: with an empty candidates
map, the classification yields no task and both sides are absent from
the merged map. -/
theorem c1_file_pair_classification_witness :
    ((alookup "a.sv" (FilePairBuilder.build_file_to_params ([] : List (String × List FileEntry))) = none
        ∧ alookup "b.sv" (FilePairBuilder.build_file_to_params ([] : List (String × List FileEntry))) = none)
      ∨ ((alookup "a.sv" (FilePairBuilder.build_file_to_params ([] : List (String × List FileEntry)))).isSome = true
          ∧ alookup "b.sv" (FilePairBuilder.build_file_to_params ([] : List (String × List FileEntry))) = none
          ∧ sideClusterCount (alookup "a.sv" (FilePairBuilder.build_file_to_params ([] : List (String × List FileEntry)))) ≤ 1)
      ∨ (alookup "a.sv" (FilePairBuilder.build_file_to_params ([] : List (String × List FileEntry))) = none
          ∧ (alookup "b.sv" (FilePairBuilder.build_file_to_params ([] : List (String × List FileEntry)))).isSome = true
          ∧ sideClusterCount (alookup "b.sv" (FilePairBuilder.build_file_to_params ([] : List (String × List FileEntry)))) ≤ 1)) :=
  (c1_file_pair_classification [] emptyDependencyData
    ⟨"a.sv", "b.sv", "mod", "u0", "code"⟩).2.2 rfl

/-! Lemmas for the Cluster-Pair strategy. -/

theorem mem_setInsert {y x : String} {l : List String} :
    y ∈ setInsert x l ↔ y = x ∨ y ∈ l := by
  unfold setInsert
  by_cases h : x ∈ l
  · rw [if_pos h]
    constructor
    · exact Or.inr
    · rintro (rfl | hy)
      · exact h
      · exact hy
  · rw [if_neg h]
    simp [List.mem_append, or_comm]

theorem mem_setUnion {y : String} {xs : List String} :
    ∀ {l : List String}, y ∈ setUnion l xs ↔ y ∈ l ∨ y ∈ xs := by
  induction xs with
  | nil => intro l; simp [setUnion]
  | cons a t ih =>
    intro l
    have e : setUnion l (a :: t) = setUnion (setInsert a l) t := rfl
    rw [e, ih, mem_setInsert]
    simp only [List.mem_cons]
    tauto

theorem mem_upsert {β : Type} {kv : String × β} {k : String} {v : β} :
    ∀ {d : List (String × β)}, kv ∈ upsert k v d → kv = (k, v) ∨ kv ∈ d := by
  intro d
  induction d with
  | nil => intro h; simpa [upsert] using h
  | cons a t ih =>
    obtain ⟨k2, v2⟩ := a
    intro h
    by_cases he : k2 = k
    · rw [show upsert k v ((k2, v2) :: t) = (k, v) :: t from by simp [upsert, he]] at h
      rcases List.mem_cons.mp h with rfl | h2
      · exact Or.inl rfl
      · exact Or.inr (List.mem_cons_of_mem _ h2)
    · rw [show upsert k v ((k2, v2) :: t) = (k2, v2) :: upsert k v t from by
        simp [upsert, he]] at h
      rcases List.mem_cons.mp h with rfl | h2
      · exact Or.inr (List.mem_cons_self _ _)
      · rcases ih h2 with h3 | h3
        · exact Or.inl h3
        · exact Or.inr (List.mem_cons_of_mem _ h3)

theorem keys_upsert_mem {β : Type} {x k : String} {v : β} {d : List (String × β)}
    (h : x ∈ (upsert k v d).map Prod.fst) : x = k ∨ x ∈ d.map Prod.fst := by
  obtain ⟨kv, hkv, hx⟩ := List.mem_map.mp h
  rcases mem_upsert hkv with rfl | hkv2
  · exact Or.inl hx.symm
  · exact Or.inr (List.mem_map.mpr ⟨kv, hkv2, hx⟩)

theorem values_upsert_mem {β : Type} {x : β} {k : String} {v : β} {d : List (String × β)}
    (h : x ∈ (upsert k v d).map Prod.snd) : x = v ∨ x ∈ d.map Prod.snd := by
  obtain ⟨kv, hkv, hx⟩ := List.mem_map.mp h
  rcases mem_upsert hkv with rfl | hkv2
  · exact Or.inl hx.symm
  · exact Or.inr (List.mem_map.mpr ⟨kv, hkv2, hx⟩)

theorem keys_upsert_nodup {β : Type} (k : String) (v : β) :
    ∀ (d : List (String × β)), (d.map Prod.fst).Nodup →
      ((upsert k v d).map Prod.fst).Nodup := by
  intro d
  induction d with
  | nil => intro _; simp [upsert]
  | cons a t ih =>
    obtain ⟨k2, v2⟩ := a
    intro h
    simp only [List.map_cons] at h
    have h1 := (List.nodup_cons.mp h).1
    have h2 := (List.nodup_cons.mp h).2
    by_cases he : k2 = k
    · rw [show upsert k v ((k2, v2) :: t) = (k, v) :: t from by simp [upsert, he]]
      simp only [List.map_cons]
      subst he
      exact List.nodup_cons.mpr ⟨h1, h2⟩
    · rw [show upsert k v ((k2, v2) :: t) = (k2, v2) :: upsert k v t from by
        simp [upsert, he]]
      simp only [List.map_cons]
      refine List.nodup_cons.mpr ⟨?_, ih h2⟩
      intro hk2
      rcases keys_upsert_mem hk2 with rfl | hmem
      · exact he rfl
      · exact h1 hmem

theorem countP_values_le_one {β : Type} (keyOf : β → String) (K : String) (p : β → Bool)
    (hp : ∀ x, p x = true → keyOf x = K) :
    ∀ (d : List (String × β)), (d.map Prod.fst).Nodup →
      (∀ kv ∈ d, kv.1 = keyOf kv.2) →
      (d.map Prod.snd).countP p ≤ 1 := by
  intro d
  induction d with
  | nil => intro _ _; simp
  | cons a t ih =>
    obtain ⟨k0, v0⟩ := a
    intro hkeys hinv
    simp only [List.map_cons] at hkeys
    have hk1 := (List.nodup_cons.mp hkeys).1
    have hk2 := (List.nodup_cons.mp hkeys).2
    simp only [List.map_cons, List.countP_cons]
    cases hv : p v0 with
    | false =>
      simp only [Bool.false_eq_true, if_false, Nat.add_zero]
      exact ih hk2 (fun kv hkv => hinv kv (List.mem_cons_of_mem _ hkv))
    | true =>
      have hk0 : k0 = K := by
        have h0 : k0 = keyOf v0 := hinv (k0, v0) (List.mem_cons_self _ _)
        rw [h0]
        exact hp v0 hv
      have hzero : (t.map Prod.snd).countP p = 0 := by
        rw [List.countP_eq_zero]
        intro x hx hpx
        obtain ⟨kv, hkv, hkvx⟩ := List.mem_map.mp hx
        have h1 : kv.1 = keyOf kv.2 := hinv kv (List.mem_cons_of_mem _ hkv)
        have h2 : keyOf kv.2 = K := by rw [hkvx]; exact hp x hpx
        have h3 : kv.1 ∈ t.map Prod.fst := List.mem_map.mpr ⟨kv, hkv, rfl⟩
        have h5 : kv.1 = k0 := (h1.trans h2).trans hk0.symm
        rw [h5] at h3
        exact hk1 h3
      rw [hzero]
      simp

theorem make_cluster_pair_key_comm (a b : String) :
    ClusterPairBuilder.make_cluster_pair_key a b
      = ClusterPairBuilder.make_cluster_pair_key b a := by
  unfold ClusterPairBuilder.make_cluster_pair_key
  by_cases h1 : a ≤ b <;> by_cases h2 : b ≤ a
  · have hab : a = b := le_antisymm h1 h2
    subst hab
    rfl
  · rw [if_pos h1, if_neg h2]
  · rw [if_neg h1, if_pos h2]
  · rcases le_total a b with h | h
    · exact absurd h h1
    · exact absurd h h2

theorem pairStep_preserves (dep : DependencyData)
    (m : List (String × ClusterPairBuilder.FileClusterInfo))
    (d : List (String × ClusterPairBuilder.ClusterPairTask)) (p : String × String)
    (h1 : (d.map Prod.fst).Nodup)
    (h2 : ∀ kv ∈ d, kv.1 = ClusterPairBuilder.make_cluster_pair_key
      kv.2.cluster_pair.1 kv.2.cluster_pair.2) :
    (((ClusterPairBuilder.pairStep dep m d p).map Prod.fst).Nodup)
    ∧ (∀ kv ∈ ClusterPairBuilder.pairStep dep m d p,
        kv.1 = ClusterPairBuilder.make_cluster_pair_key
          kv.2.cluster_pair.1 kv.2.cluster_pair.2) := by
  unfold ClusterPairBuilder.pairStep
  by_cases hc : (ClusterPairBuilder.collect_contexts_for_cluster_pair dep p.1 p.2 m).isEmpty
  · rw [if_pos hc]
    exact ⟨h1, h2⟩
  · rw [if_neg hc]
    refine ⟨keys_upsert_nodup _ _ _ h1, ?_⟩
    intro kv hkv
    rcases mem_upsert hkv with rfl | hkv2
    · rfl
    · exact h2 kv hkv2

theorem pairStep_fold_inv (dep : DependencyData)
    (m : List (String × ClusterPairBuilder.FileClusterInfo)) :
    ∀ (ps : List (String × String)) (d : List (String × ClusterPairBuilder.ClusterPairTask)),
      (d.map Prod.fst).Nodup →
      (∀ kv ∈ d, kv.1 = ClusterPairBuilder.make_cluster_pair_key
        kv.2.cluster_pair.1 kv.2.cluster_pair.2) →
      (((ps.foldl (ClusterPairBuilder.pairStep dep m) d).map Prod.fst).Nodup)
      ∧ (∀ kv ∈ ps.foldl (ClusterPairBuilder.pairStep dep m) d,
          kv.1 = ClusterPairBuilder.make_cluster_pair_key
            kv.2.cluster_pair.1 kv.2.cluster_pair.2) := by
  intro ps
  induction ps with
  | nil => intro d h1 h2; exact ⟨h1, h2⟩
  | cons p ps ih =>
    intro d h1 h2
    rw [List.foldl_cons]
    have hstep := pairStep_preserves dep m d p h1 h2
    exact ih _ hstep.1 hstep.2

theorem pairStep_fold_mem (dep : DependencyData)
    (m : List (String × ClusterPairBuilder.FileClusterInfo)) :
    ∀ (ps : List (String × String)) (d : List (String × ClusterPairBuilder.ClusterPairTask))
      (t : ClusterPairBuilder.ClusterPairTask),
      t ∈ (ps.foldl (ClusterPairBuilder.pairStep dep m) d).map Prod.snd →
      t ∈ d.map Prod.snd
      ∨ ∃ p ∈ ps, t = ClusterPairBuilder.mkClusterPairTask p.1 p.2
            (ClusterPairBuilder.collect_contexts_for_cluster_pair dep p.1 p.2 m)
          ∧ ClusterPairBuilder.collect_contexts_for_cluster_pair dep p.1 p.2 m ≠ [] := by
  intro ps
  induction ps with
  | nil => intro d t h; exact Or.inl h
  | cons p ps ih =>
    intro d t h
    rw [List.foldl_cons] at h
    rcases ih _ t h with h2 | ⟨q, hq, ht, hne⟩
    · unfold ClusterPairBuilder.pairStep at h2
      by_cases hc : (ClusterPairBuilder.collect_contexts_for_cluster_pair dep p.1 p.2 m).isEmpty
      · rw [if_pos hc] at h2
        exact Or.inl h2
      · rw [if_neg hc] at h2
        rcases values_upsert_mem h2 with rfl | h3
        · refine Or.inr ⟨p, List.mem_cons_self _ _, rfl, ?_⟩
          intro he
          rw [he] at hc
          exact hc rfl
        · exact Or.inl h3
    · exact Or.inr ⟨q, List.mem_cons_of_mem _ hq, ht, hne⟩

theorem combinations2_mem {α : Type} (p : α × α) :
    ∀ (l : List α), p ∈ ClusterPairBuilder.combinations2 l → p.1 ∈ l ∧ p.2 ∈ l := by
  intro l
  induction l with
  | nil => intro h; simpa [ClusterPairBuilder.combinations2] using h
  | cons x xs ih =>
    intro h
    simp only [ClusterPairBuilder.combinations2, List.mem_append, List.mem_map] at h
    rcases h with ⟨y, hy, hp⟩ | h
    · rw [← hp]
      exact ⟨List.mem_cons_self _ _, List.mem_cons_of_mem _ hy⟩
    · have h2 := ih h
      exact ⟨List.mem_cons_of_mem _ h2.1, List.mem_cons_of_mem _ h2.2⟩

theorem upsertWith_forall {β : Type} (P : β → Prop) (dflt : β) (k : String) (f : β → β)
    (hfd : P (f dflt)) (hf : ∀ v, P v → P (f v)) :
    ∀ (d : List (String × β)), (∀ kv ∈ d, P kv.2) →
      ∀ kv ∈ upsertWith dflt k f d, P kv.2 := by
  intro d
  induction d with
  | nil =>
    intro _ kv hkv
    simp only [upsertWith, List.mem_singleton] at hkv
    rw [hkv]
    exact hfd
  | cons a t ih =>
    obtain ⟨k2, v2⟩ := a
    intro hd kv hkv
    by_cases he : k2 = k
    · rw [show upsertWith dflt k f ((k2, v2) :: t) = (k, f v2) :: t from by
        simp [upsertWith, he]] at hkv
      rcases List.mem_cons.mp hkv with rfl | h2
      · exact hf v2 (hd (k2, v2) (List.mem_cons_self _ _))
      · exact hd kv (List.mem_cons_of_mem _ h2)
    · rw [show upsertWith dflt k f ((k2, v2) :: t) = (k2, v2) :: upsertWith dflt k f t from by
        simp [upsertWith, he]] at hkv
      rcases List.mem_cons.mp hkv with rfl | h2
      · exact hd (k2, v2) (List.mem_cons_self _ _)
      · exact ih (fun kv2 hkv2 => hd kv2 (List.mem_cons_of_mem _ hkv2)) kv h2

theorem clusterHasFile_of_mem (candidates : List (String × List FileEntry))
    (cf : String × List FileEntry) (hcf : cf ∈ candidates) (hne : cf.2 ≠ []) :
    clusterHasFile candidates cf.1 = true := by
  unfold clusterHasFile
  rw [List.any_eq_true]
  refine ⟨cf, hcf, ?_⟩
  simp [List.isEmpty_iff, hne]

theorem mapStepFile_fold_good (candidates : List (String × List FileEntry))
    (cfname : String) (hhas : clusterHasFile candidates cfname = true) :
    ∀ (fs : List FileEntry) (m : List (String × ClusterPairBuilder.FileClusterInfo)),
      (∀ kv ∈ m, ∀ c ∈ kv.2.clusters, clusterHasFile candidates c = true) →
      ∀ kv ∈ fs.foldl (ClusterPairBuilder.mapStepFile cfname) m,
        ∀ c ∈ kv.2.clusters, clusterHasFile candidates c = true := by
  intro fs
  induction fs with
  | nil => intro m hm; exact hm
  | cons f fs ih =>
    intro m hm
    rw [List.foldl_cons]
    apply ih
    unfold ClusterPairBuilder.mapStepFile
    apply upsertWith_forall
      (fun (info : ClusterPairBuilder.FileClusterInfo) =>
        ∀ c ∈ info.clusters, clusterHasFile candidates c = true)
    · intro c hc
      simp only [ClusterPairBuilder.emptyFCI] at hc
      rcases mem_setInsert.mp hc with rfl | hc2
      · exact hhas
      · exact absurd hc2 (List.not_mem_nil c)
    · intro v hv c hc
      rcases mem_setInsert.mp hc with rfl | hc2
      · exact hhas
      · exact hv c hc2
    · exact hm

theorem mapping_clusters_have_file (candidates : List (String × List FileEntry)) :
    ∀ kv ∈ ClusterPairBuilder.build_file_param_mapping candidates,
      ∀ c ∈ kv.2.clusters, clusterHasFile candidates c = true := by
  have aux : ∀ (cands : List (String × List FileEntry)),
      (∀ cf ∈ cands, cf ∈ candidates) →
      ∀ (m : List (String × ClusterPairBuilder.FileClusterInfo)),
        (∀ kv ∈ m, ∀ c ∈ kv.2.clusters, clusterHasFile candidates c = true) →
        ∀ kv ∈ cands.foldl (fun m cf => cf.2.foldl (ClusterPairBuilder.mapStepFile cf.1) m) m,
          ∀ c ∈ kv.2.clusters, clusterHasFile candidates c = true := by
    intro cands
    induction cands with
    | nil => intro _ m hm; exact hm
    | cons cf cands ih =>
      intro hsub m hm
      rw [List.foldl_cons]
      apply ih (fun cf2 h2 => hsub cf2 (List.mem_cons_of_mem _ h2))
      cases hfs : cf.2 with
      | nil => exact hm
      | cons f0 fs0 =>
        have hhas : clusterHasFile candidates cf.1 = true :=
          clusterHasFile_of_mem candidates cf (hsub cf (List.mem_cons_self _ _))
            (by rw [hfs]; exact List.cons_ne_nil _ _)
        exact mapStepFile_fold_good candidates cf.1 hhas (f0 :: fs0) m hm
  exact aux candidates (fun cf h => h) []
    (by intro kv h; exact absurd h (List.not_mem_nil kv))

theorem used_clusters_spec (m : List (String × ClusterPairBuilder.FileClusterInfo)) :
    ∀ c ∈ ClusterPairBuilder.used_clusters m, ∃ kv ∈ m, c ∈ kv.2.clusters := by
  have aux : ∀ (ms : List (String × ClusterPairBuilder.FileClusterInfo))
      (acc : List String) (c : String),
      c ∈ ms.foldl (fun a kv => setUnion a kv.2.clusters) acc →
      c ∈ acc ∨ ∃ kv ∈ ms, c ∈ kv.2.clusters := by
    intro ms
    induction ms with
    | nil => intro acc c h; exact Or.inl h
    | cons kv0 ms ih =>
      intro acc c h
      rw [List.foldl_cons] at h
      rcases ih _ c h with h2 | ⟨kv, hkv, hc⟩
      · rcases mem_setUnion.mp h2 with h3 | h3
        · exact Or.inl h3
        · exact Or.inr ⟨kv0, List.mem_cons_self _ _, h3⟩
      · exact Or.inr ⟨kv, List.mem_cons_of_mem _ hkv, hc⟩
  intro c hc
  rcases aux m [] c hc with h | h
  · exact absurd h (List.not_mem_nil c)
  · exact h

theorem used_clusters_have_file (candidates : List (String × List FileEntry)) :
    ∀ c ∈ ClusterPairBuilder.used_clusters
        (ClusterPairBuilder.build_file_param_mapping candidates),
      clusterHasFile candidates c = true := by
  intro c hc
  obtain ⟨kv, hkv, hck⟩ := used_clusters_spec _ c hc
  exact mapping_clusters_have_file candidates kv hkv c hck

/-- CLAIM C2: for any two distinct clusters A and B, the Cluster-Pair
strategy emits at most one task for the unordered pair, regardless of
discovery order (the dict key is the sorted joined pair of names); only
clusters with at least one matching file are enumerated, and a pair
whose collected evidence list is empty produces no task. -/
theorem c2_cluster_pair_dedup (dep : DependencyData)
    (candidates : List (String × List FileEntry))
    (clusters_def : List (String × List String)) (A B : String) (hAB : A ≠ B) :
    ((ClusterPairBuilder.build_pairs dep candidates clusters_def).countP
        (fun t => t.cluster_pair = (A, B) || t.cluster_pair = (B, A)) ≤ 1)
    ∧ (∀ t ∈ ClusterPairBuilder.build_pairs dep candidates clusters_def,
        t.contexts ≠ [] ∧ clusterHasFile candidates t.cluster_pair.1 = true
          ∧ clusterHasFile candidates t.cluster_pair.2 = true) := by
  constructor
  · have hinv := pairStep_fold_inv dep
      (ClusterPairBuilder.build_file_param_mapping candidates)
      (ClusterPairBuilder.combinations2 (sortStrings (ClusterPairBuilder.used_clusters
        (ClusterPairBuilder.build_file_param_mapping candidates)))) []
      (by simp) (by intro kv h; exact absurd h (List.not_mem_nil kv))
    apply countP_values_le_one
      (fun t => ClusterPairBuilder.make_cluster_pair_key t.cluster_pair.1 t.cluster_pair.2)
      (ClusterPairBuilder.make_cluster_pair_key A B) _ ?_ _ hinv.1 hinv.2
    intro x hx
    simp only [Bool.or_eq_true, decide_eq_true_eq] at hx
    rcases hx with hx | hx
    · show ClusterPairBuilder.make_cluster_pair_key x.cluster_pair.1 x.cluster_pair.2 = _
      rw [hx]
    · show ClusterPairBuilder.make_cluster_pair_key x.cluster_pair.1 x.cluster_pair.2 = _
      rw [hx]
      exact make_cluster_pair_key_comm B A
  · intro t ht
    have hmem := pairStep_fold_mem dep
      (ClusterPairBuilder.build_file_param_mapping candidates)
      (ClusterPairBuilder.combinations2 (sortStrings (ClusterPairBuilder.used_clusters
        (ClusterPairBuilder.build_file_param_mapping candidates)))) [] t ht
    rcases hmem with h | ⟨p, hp, rfl, hne⟩
    · simp at h
    · have hpm := combinations2_mem p _ hp
      have h1 : p.1 ∈ ClusterPairBuilder.used_clusters
          (ClusterPairBuilder.build_file_param_mapping candidates) :=
        (sortStrings_perm _).mem_iff.mp hpm.1
      have h2 : p.2 ∈ ClusterPairBuilder.used_clusters
          (ClusterPairBuilder.build_file_param_mapping candidates) :=
        (sortStrings_perm _).mem_iff.mp hpm.2
      exact ⟨hne, used_clusters_have_file candidates p.1 h1,
        used_clusters_have_file candidates p.2 h2⟩

/-- Witness for C2 at a concrete run with one used pair. -/
theorem c2_cluster_pair_dedup_witness :
    ((ClusterPairBuilder.build_pairs emptyDependencyData
        [("A", [⟨"g.sv", ["P"], [], 1, []⟩]), ("B", [⟨"g.sv", ["P"], [], 1, []⟩])] []).countP
      (fun t => t.cluster_pair = ("A", "B") || t.cluster_pair = ("B", "A")) ≤ 1) :=
  (c2_cluster_pair_dedup emptyDependencyData
    [("A", [⟨"g.sv", ["P"], [], 1, []⟩]), ("B", [⟨"g.sv", ["P"], [], 1, []⟩])] []
    "A" "B" (by decide)).1

/-- CLAIM C6 counterexample: with a missing dependency file (empty
dependency data) the Cluster-Pair strategy can still emit tasks from
intra-file co-occurrence evidence; here one file matching two clusters
yields one task instead of the zero the claim requires. -/
theorem c6_counterexample :
    (ClusterPairBuilder.build_pairs emptyDependencyData
      [("A", [⟨"f.sv", ["P"], [], 1, []⟩]), ("B", [⟨"f.sv", ["P"], [], 1, []⟩])] []).length
      = 1 := by with_unfolding_all rfl

theorem collect_empty_dep_no_inter (c1 c2 : String)
    (m : List (String × ClusterPairBuilder.FileClusterInfo)) :
    ∀ x ∈ ClusterPairBuilder.collect_contexts_for_cluster_pair emptyDependencyData c1 c2 m,
      ClusterPairBuilder.CPContext.isInter x = false := by
  intro x hx
  unfold ClusterPairBuilder.collect_contexts_for_cluster_pair at hx
  simp only [emptyDependencyData, List.foldl_nil, List.append_nil] at hx
  obtain ⟨kv, _, hkv⟩ := List.mem_filterMap.mp hx
  by_cases hc : c1 ∈ kv.2.clusters ∧ c2 ∈ kv.2.clusters
  · rw [if_pos hc] at hkv
    have h2 := Option.some.inj hkv
    rw [← h2]
    rfl
  · rw [if_neg hc] at hkv
    exact absurd hkv (by simp)

/-- CLAIM C6 (amended): a missing dependency-graph input file is
treated as the empty structure and raises no error; the File-Pair
strategy then produces zero tasks, and the Cluster-Pair strategy
produces no inter-file evidence (every emitted task comes from
intra-file co-occurrence alone, so tasks can still exist). -/
theorem c6_missing_dependency_amended :
    (∀ candidates, FilePairBuilder.build_pairs emptyDependencyData candidates = [])
    ∧ (∀ candidates clusters_def t,
        t ∈ ClusterPairBuilder.build_pairs emptyDependencyData candidates clusters_def →
        t.has_inter_file = false) := by
  constructor
  · intro candidates
    rfl
  · intro candidates clusters_def t ht
    have hmem := pairStep_fold_mem emptyDependencyData
      (ClusterPairBuilder.build_file_param_mapping candidates)
      (ClusterPairBuilder.combinations2 (sortStrings (ClusterPairBuilder.used_clusters
        (ClusterPairBuilder.build_file_param_mapping candidates)))) [] t ht
    rcases hmem with h | ⟨p, _, rfl, _⟩
    · simp at h
    · show (ClusterPairBuilder.collect_contexts_for_cluster_pair emptyDependencyData p.1 p.2
        (ClusterPairBuilder.build_file_param_mapping candidates)).any
          ClusterPairBuilder.CPContext.isInter = false
      rw [List.any_eq_false]
      intro x hx
      have h3 := collect_empty_dep_no_inter p.1 p.2
        (ClusterPairBuilder.build_file_param_mapping candidates) x hx
      simp [h3]

/-- Witness for the amended C6: the single task of the counterexample
run indeed carries no inter-file evidence. -/
theorem c6_missing_dependency_amended_witness :
    (ClusterPairBuilder.mkClusterPairTask "A" "B"
      [ClusterPairBuilder.CPContext.intra "f.sv" "A" "B"
        ⟨["P"], [], []⟩ ⟨["P"], [], []⟩]).has_inter_file = false :=
  c6_missing_dependency_amended.2
    [("A", [⟨"f.sv", ["P"], [], 1, []⟩]), ("B", [⟨"f.sv", ["P"], [], 1, []⟩])] [] _
    (by
      have h : ClusterPairBuilder.build_pairs emptyDependencyData
          [("A", [⟨"f.sv", ["P"], [], 1, []⟩]), ("B", [⟨"f.sv", ["P"], [], 1, []⟩])] [] =
          [ClusterPairBuilder.mkClusterPairTask "A" "B"
            [ClusterPairBuilder.CPContext.intra "f.sv" "A" "B" ⟨["P"], [], []⟩ ⟨["P"], [], []⟩]] := by
        with_unfolding_all rfl
      rw [h]
      exact List.mem_singleton.mpr rfl)

theorem alookup_upsert {β : Type} (p k : String) (v : β) (m : List (String × β)) :
    alookup p (upsert k v m) = if k = p then some v else alookup p m := by
  induction m with
  | nil => simp [upsert, alookup]
  | cons kv t ih =>
    obtain ⟨k0, v0⟩ := kv
    by_cases h0 : k0 = k
    · subst h0
      by_cases hp : k0 = p
      · simp [upsert, alookup, hp]
      · simp [upsert, alookup, hp]
    · by_cases hp : k0 = p
      · subst hp
        have hk : ¬ k = k0 := fun h => h0 h.symm
        simp [upsert, alookup, h0, hk]
      · simp [upsert, alookup, h0, hp, ih]

theorem alookup_upsert_isSome {β : Type} (p k : String) (v : β) (m : List (String × β))
    (h : (alookup p m).isSome = true) : (alookup p (upsert k v m)).isSome = true := by
  rw [alookup_upsert]
  by_cases hk : k = p
  · rw [if_pos hk]
    rfl
  · rw [if_neg hk]
    exact h

theorem alookup_map_pair {β : Type} (f : String → β) :
    ∀ (l : List String) (c : String), c ∈ l →
      (alookup c (l.map (fun x => (x, f x)))).isSome = true := by
  intro l
  induction l with
  | nil =>
    intro c hc
    cases hc
  | cons x t ih =>
    intro c hc
    simp only [List.map_cons, alookup]
    by_cases hx : x = c
    · rw [if_pos hx]
      rfl
    · rw [if_neg hx]
      rcases List.mem_cons.mp hc with h | h
      · exact absurd h.symm hx
      · exact ih c h

theorem alookup_initMatrix (c : String) (l : List String) (h : c ∈ l) :
    (alookup c (initMatrix l)).isSome = true := by
  unfold initMatrix
  exact alookup_map_pair (fun _ => l.map (fun c2 => (c2, MatrixCell.init))) l c h

theorem setInsert_mem_self (x : String) (l : List String) : x ∈ setInsert x l :=
  mem_setInsert.mpr (Or.inl rfl)

theorem setInsert_mem_mono {y : String} (x : String) {l : List String} (h : y ∈ l) :
    y ∈ setInsert x l :=
  mem_setInsert.mpr (Or.inr h)

theorem inferUsed_fold_mono (x : String) :
    ∀ (rs : List LLMResult) (s : List String), x ∈ s →
      x ∈ rs.foldl (fun s r => setInsert r.cluster_pair.2 (setInsert r.cluster_pair.1 s)) s := by
  intro rs
  induction rs with
  | nil =>
    intro s h
    exact h
  | cons r t ih =>
    intro s h
    simp only [List.foldl_cons]
    exact ih _ (setInsert_mem_mono _ (setInsert_mem_mono _ h))

theorem mem_inferUsed (rs : List LLMResult) (r : LLMResult) (h : r ∈ rs) :
    r.cluster_pair.1 ∈ inferUsed rs ∧ r.cluster_pair.2 ∈ inferUsed rs := by
  have main : ∀ (l : List LLMResult) (s : List String), r ∈ l →
      r.cluster_pair.1 ∈
        l.foldl (fun s r => setInsert r.cluster_pair.2 (setInsert r.cluster_pair.1 s)) s
      ∧ r.cluster_pair.2 ∈
        l.foldl (fun s r => setInsert r.cluster_pair.2 (setInsert r.cluster_pair.1 s)) s := by
    intro l
    induction l with
    | nil =>
      intro s hr
      cases hr
    | cons r0 t ih =>
      intro s hr
      simp only [List.foldl_cons]
      rcases List.mem_cons.mp hr with h0 | h0
      · subst h0
        constructor
        · exact inferUsed_fold_mono _ t _
            (setInsert_mem_mono _ (setInsert_mem_self _ _))
        · exact inferUsed_fold_mono _ t _ (setInsert_mem_self _ _)
      · exact ih _ h0
  exact main rs [] h

theorem setMatrixCell_ok (m : List (String × List (String × MatrixCell))) (c1 c2 : String)
    (cell : MatrixCell) (h : (alookup c1 m).isSome = true) :
    ∃ m1, setMatrixCell m c1 c2 cell = Except.ok m1 ∧
      ∀ c, (alookup c m).isSome = true → (alookup c m1).isSome = true := by
  obtain ⟨inner, hin⟩ := Option.isSome_iff_exists.mp h
  refine ⟨upsert c1 (upsert c2 cell inner) m, ?_, ?_⟩
  · unfold setMatrixCell
    rw [hin]
  · intro c hc
    exact alookup_upsert_isSome c c1 _ m hc

theorem fillStep_ok (m : List (String × List (String × MatrixCell))) (r : LLMResult)
    (h1 : (alookup r.cluster_pair.1 m).isSome = true)
    (h2 : (alookup r.cluster_pair.2 m).isSome = true) :
    ∃ m2, fillStep m r = Except.ok m2 ∧
      ∀ c, (alookup c m).isSome = true → (alookup c m2).isSome = true := by
  obtain ⟨mA, hA, hApres⟩ := setMatrixCell_ok m r.cluster_pair.1 r.cluster_pair.2
    (MatrixCell.filled r.analysis.couplings.length r.context_count r.has_intra_file
      r.has_inter_file r.analysis.analysis_summary r.analysis.couplings) h1
  obtain ⟨mB, hB, hBpres⟩ := setMatrixCell_ok mA r.cluster_pair.2 r.cluster_pair.1
    (MatrixCell.filled r.analysis.couplings.length r.context_count r.has_intra_file
      r.has_inter_file r.analysis.analysis_summary r.analysis.couplings) (hApres _ h2)
  refine ⟨mB, ?_, fun c hc => hBpres c (hApres c hc)⟩
  show (match setMatrixCell m r.cluster_pair.1 r.cluster_pair.2
        (MatrixCell.filled r.analysis.couplings.length r.context_count r.has_intra_file
          r.has_inter_file r.analysis.analysis_summary r.analysis.couplings) with
    | Except.error e => Except.error e
    | Except.ok m1 => setMatrixCell m1 r.cluster_pair.2 r.cluster_pair.1
        (MatrixCell.filled r.analysis.couplings.length r.context_count r.has_intra_file
          r.has_inter_file r.analysis.analysis_summary r.analysis.couplings))
    = Except.ok mB
  rw [hA]
  exact hB

theorem fillAll_ok :
    ∀ (rs : List LLMResult) (m : List (String × List (String × MatrixCell))),
      (∀ r ∈ rs, (alookup r.cluster_pair.1 m).isSome = true ∧
        (alookup r.cluster_pair.2 m).isSome = true) →
      ∃ m1, fillAll m rs = Except.ok m1 := by
  intro rs
  induction rs with
  | nil =>
    intro m _
    exact ⟨m, rfl⟩
  | cons r t ih =>
    intro m h
    obtain ⟨m2, h2, hpres⟩ := fillStep_ok m r
      (h r (List.mem_cons_self _ _)).1 (h r (List.mem_cons_self _ _)).2
    obtain ⟨m1, h1⟩ := ih m2 (fun r0 hr0 =>
      ⟨hpres _ (h r0 (List.mem_cons_of_mem _ hr0)).1,
       hpres _ (h r0 (List.mem_cons_of_mem _ hr0)).2⟩)
    refine ⟨m1, ?_⟩
    show (match fillStep m r with
      | Except.error e => Except.error e
      | Except.ok mm => fillAll mm t) = Except.ok m1
    rw [h2]
    exact h1

theorem statsTotals_error (rs : List LLMResult) :
    statsTotals rs = Except.error "TypeError" := by
  cases rs with
  | nil => rfl
  | cons r t => rfl

theorem build_coupling_matrix_none_error (llm_results : List LLMResult)
    (clusters_def : List (String × List String)) :
    build_coupling_matrix llm_results clusters_def none = Except.error "TypeError" := by
  obtain ⟨m1, hm1⟩ := fillAll_ok llm_results
    (initMatrix (sortStrings (inferUsed llm_results)))
    (fun r hr => by
      have h := mem_inferUsed llm_results r hr
      exact ⟨alookup_initMatrix _ _ ((sortStrings_perm _).mem_iff.mpr h.1),
             alookup_initMatrix _ _ ((sortStrings_perm _).mem_iff.mpr h.2)⟩)
  show (match fillAll (initMatrix (sortStrings (inferUsed llm_results))) llm_results with
    | Except.error e => Except.error e
    | Except.ok m =>
      match statsTotals llm_results with
      | Except.error e => Except.error e
      | Except.ok _total => Except.ok m) = Except.error "TypeError"
  rw [hm1, statsTotals_error]

/-- CLAIM C7: the Aggregator is not idempotent in the claimed sense,
because its matrix half never completes: generate_summary is a pure
function (two runs on the same couplings agree), but
build_coupling_matrix raises an uncaught exception on every result
list, so no run yields a ClusterCouplingMatrix for a second run to be
compared with. -/
theorem c7_aggregator_idempotence_broken :
    (∀ couplings : List Coupling, generate_summary couplings = generate_summary couplings)
    ∧ ∀ (llm_results : List LLMResult) (clusters_def : List (String × List String)),
        ∃ e, build_coupling_matrix llm_results clusters_def none = Except.error e :=
  ⟨fun _ => rfl,
   fun rs ds => ⟨"TypeError", build_coupling_matrix_none_error rs ds⟩⟩

/-- CLAIM C8 counterexample: two coupling records write conflicting
cluster attributes for parameter P (first A, then B); the resulting
graph carries cluster B on node P, so the first-written attribute does
not win. -/
theorem c8_counterexample :
    alookup "P"
      (build_graph
        [⟨"P", "Q", "A", "X", "DIRECT_PASS", "d1", "r1", "high"⟩,
         ⟨"P", "Q", "B", "X", "DIRECT_PASS", "d2", "r2", "low"⟩]).nodes = some "B" := by
  rfl

theorem optOr_assoc (a b c : Option String) :
    optOr (optOr a b) c = optOr a (optOr b c) := by
  cases a <;> rfl

theorem optOr_none_right (a : Option String) : optOr a none = a := by
  cases a <;> rfl

theorem graphStep_alookup (p : String) (G : CouplingGraph) (c : Coupling) :
    alookup p (graphStep G c).nodes =
      optOr (if !c.param1.isEmpty && !c.param2.isEmpty then
               (if c.param2 = p then some c.param2_cluster
                else if c.param1 = p then some c.param1_cluster
                else none)
             else none)
        (alookup p G.nodes) := by
  unfold graphStep
  by_cases hg : (!c.param1.isEmpty && !c.param2.isEmpty) = true
  · rw [if_pos hg, if_pos hg]
    show alookup p (upsert c.param2 c.param2_cluster
      (upsert c.param1 c.param1_cluster G.nodes)) = _
    rw [alookup_upsert, alookup_upsert]
    by_cases h2 : c.param2 = p
    · rw [if_pos h2, if_pos h2]
      rfl
    · rw [if_neg h2, if_neg h2]
      by_cases h1 : c.param1 = p
      · rw [if_pos h1, if_pos h1]
        rfl
      · rw [if_neg h1, if_neg h1]
        rfl
  · rw [if_neg hg, if_neg hg]
    rfl

theorem foldl_graph_alookup (p : String) :
    ∀ (cs : List Coupling) (G : CouplingGraph),
      alookup p (cs.foldl graphStep G).nodes =
        optOr (lastAssignedCluster p cs) (alookup p G.nodes) := by
  intro cs
  induction cs with
  | nil =>
    intro G
    rfl
  | cons c t ih =>
    intro G
    rw [List.foldl_cons, ih (graphStep G c), graphStep_alookup, ← optOr_assoc]
    rfl

/-- CLAIM C8 (amended): networkx add_node on an existing node updates
its attribute dict, so in the graph of build_graph the cluster
attribute of every parameter node is the LAST cluster written for it
across the records (with the param2 write of a record following its
param1 write), not the first-written one. -/
theorem c8_cluster_attribute_last_write_wins (p : String) (couplings : List Coupling) :
    alookup p (build_graph couplings).nodes = lastAssignedCluster p couplings := by
  unfold build_graph
  rw [foldl_graph_alookup]
  exact optOr_none_right _

/-- CLAIM C9: the Document Builder renders without I/O, as the pure
function generate_prompt of the task alone, so rendering the identical
task input twice yields character-for-character identical documents. -/
theorem c9_render_deterministic (t1 t2 : ClusterPairBuilder.ClusterPairTask)
    (h : t1 = t2) : generate_prompt t1 = generate_prompt t2 := by
  rw [h]

/-- Witness for C9 at a concrete one-context task. -/
theorem c9_render_deterministic_witness :
    generate_prompt (ClusterPairBuilder.mkClusterPairTask "A" "B"
        [ClusterPairBuilder.CPContext.intra "f.sv" "A" "B" ⟨["P"], [], []⟩ ⟨["P"], [], []⟩]) =
      generate_prompt (ClusterPairBuilder.mkClusterPairTask "A" "B"
        [ClusterPairBuilder.CPContext.intra "f.sv" "A" "B" ⟨["P"], [], []⟩ ⟨["P"], [], []⟩]) :=
  c9_render_deterministic
    (ClusterPairBuilder.mkClusterPairTask "A" "B"
      [ClusterPairBuilder.CPContext.intra "f.sv" "A" "B" ⟨["P"], [], []⟩ ⟨["P"], [], []⟩])
    (ClusterPairBuilder.mkClusterPairTask "A" "B"
      [ClusterPairBuilder.CPContext.intra "f.sv" "A" "B" ⟨["P"], [], []⟩ ⟨["P"], [], []⟩])
    rfl

/-- CLAIM C10: for every list of cluster-pair judgment results, empty
or not, build_coupling_matrix with the used clusters inferred from the
results reaches its statistics step and raises TypeError there (the sum
of the coupling lists starts from the int zero, and iterating that int
fails on the empty list), so it never returns the constructed matrix. -/
theorem c10_matrix_always_type_error (llm_results : List LLMResult)
    (clusters_def : List (String × List String)) :
    build_coupling_matrix llm_results clusters_def none = Except.error "TypeError" :=
  build_coupling_matrix_none_error llm_results clusters_def

end Params
